import Mathlib

/-!
# Verification of the coachAssistAI plan-generation engine

Shallow embedding, translated from the Python sources:
* `src/services/workout_planner.py` (`WorkoutPlannerService`)
* `src/services/workout_routine.py` (`WorkoutRoutineService`)
* `src/services/class_roster.py` (`ClassRosterService`, `DummyAttendanceService`)
* `src/services/weather.py` (`OpenMeteoWeatherService`)

Python floats are embedded as `ℚ` (all comparisons in the rules are exact on
the values involved), Python `None` as `Option`, raised exceptions as
`Except`/`Option`, and CPython's `random.Random` (Mersenne Twister) is
embedded concretely word-for-word from CPython's `_random` module since the
attendance selection draws from it.
-/

set_option maxRecDepth 40000

namespace Coach

/-! ## Data model (dataclasses from the sources) -/

/-- `ClassMember` dataclass from `class_roster.py`. -/
structure ClassMember where
  name : String
  status : String
deriving DecidableEq, Repr

/-- `ClassSession` dataclass from `class_roster.py`; `location` is
`str | None`. -/
structure ClassSession where
  day : String
  class_name : String
  time : String
  roster : List ClassMember
  location : Option String := none
deriving DecidableEq, Repr

/-- `WorkoutRoutine` dataclass from `workout_routine.py`. -/
structure WorkoutRoutine where
  day : String
  name : String
  exercises : List String
  duration_minutes : Int
  intensity : String
deriving DecidableEq, Repr

/-- `WindForcast` dataclass from `weather.py` (sic); floats are embedded as
`ℚ`, the optional fields as `Option ℚ`. -/
structure WindForcast where
  location : String
  wind_speed_mps : ℚ
  wind_gust_mps : Option ℚ
  description : String
  temperature_celsius : Option ℚ := none
deriving DecidableEq, Repr

/-- `WorkoutPlan` dataclass from `workout_planner.py`. -/
structure WorkoutPlan where
  date : String
  routine : WorkoutRoutine
  wind_forecast : WindForcast
  class_session : Option ClassSession
  recommended_adjustments : List String
  plan_summary : String
deriving DecidableEq, Repr

/-! ## String helpers mirroring the Python string operations used -/

/-- Substring test on character lists: `needle` occurs in the list iff it
is a prefix of some suffix. -/
def listContains (needle : List Char) : List Char → Bool
  | [] => needle.isEmpty
  | c :: rest => needle.isPrefixOf (c :: rest) || listContains needle rest

/-- Python's `needle in haystack` on strings (substring containment). -/
def strContains (haystack needle : String) : Bool :=
  listContains needle.data haystack.data

/-- Python's `str.lower()` (character-wise; the keywords tested are ASCII). -/
def pyLower (s : String) : String :=
  String.mk (s.data.map Char.toLower)

/-- Python's `s.startswith(p)`, used here only to talk about rendered lines. -/
def strStarts (p s : String) : Bool :=
  p.data.isPrefixOf s.data

/-! ## Advisory messages (the f-strings of `_generate_adjustments`) -/

/-- "High wind speed" advisory string (wind rule, `> 10` branch). -/
def highWindMsg (w : ℚ) : String :=
  "⚠️ High wind speed (" ++ (toString w ++
    " m/s) - consider moving outdoor activities indoors")

/-- "Moderate wind" advisory string (wind rule, `> 5` branch). -/
def moderateWindMsg (w : ℚ) : String :=
  "⚡ Moderate wind (" ++ (toString w ++
    " m/s) - adjust form for exercises, especially standing movements")

/-- Rain-safety advisory string. -/
def rainMsg : String :=
  "🌧️ Rainy conditions - ensure proper footwear and safety"

/-- Favorable-weather advisory string. -/
def clearMsg : String :=
  "☀️ Great weather - consider outdoor cardio session"

/-- Heat advisory string (`temp >= 30`). -/
def heatMsg (t : ℚ) : String :=
  "🔥 High temperature (" ++ (toString t ++
    "°C) - shorten outdoor cardio and hydrate")

/-- Cold advisory string (`temp <= 5`). -/
def coldMsg (t : ℚ) : String :=
  "❄️ Low temperature (" ++ (toString t ++
    "°C) - layer up and consider indoor warm-up")

/-- Hydration/recovery advisory string (intensity rule). -/
def highIntensityMsg : String :=
  "💪 High intensity workout - ensure adequate hydration and recovery"

/-- Low-attendance advisory string. -/
def lowAttendanceMsg (p t : ℕ) : String :=
  "📊 Low class attendance (" ++ (toString p ++ ("/" ++ (toString t ++
    ") - consider additional motivation or adjustments")))

/-- Strong-attendance advisory string. -/
def strongAttendanceMsg (p t : ℕ) : String :=
  "✅ Strong class attendance (" ++ (toString p ++ ("/" ++ (toString t ++ ")")))

/-- Fallback "optimal conditions" advisory string. -/
def optimalMsg : String :=
  "✨ Optimal conditions - proceed with standard routine"

/-! ## `WorkoutPlannerService._generate_adjustments` -/

/-- Number of roster members with status `"Present"`
(`sum(1 for m in class_session.roster if m.status == "Present")`). -/
def presentCount (s : ClassSession) : ℕ :=
  (s.roster.filter (fun m => m.status = "Present")).length

/-- The advisory-rule evaluation inside
`WorkoutPlannerService._generate_adjustments` (`workout_planner.py` lines
88-143): the sequential `append`s are rendered as a concatenation of the
lists each `if` contributes, in the source order.  The fallback append of
line 145-146 is in `generate_adjustments` below. -/
def ruleAdjustments (routine : WorkoutRoutine) (wind_forecast : WindForcast)
    (class_session : Option ClassSession) : List String :=
  (if 10 < wind_forecast.wind_speed_mps then
      [highWindMsg wind_forecast.wind_speed_mps]
    else if 5 < wind_forecast.wind_speed_mps then
      [moderateWindMsg wind_forecast.wind_speed_mps]
    else []) ++
  (if strContains (pyLower wind_forecast.description) "rain" then [rainMsg]
    else []) ++
  (if strContains (pyLower wind_forecast.description) "clear"
      || strContains (pyLower wind_forecast.description) "sunny" then [clearMsg]
    else []) ++
  (match wind_forecast.temperature_celsius with
    | none => []
    | some t =>
      if 30 ≤ t then [heatMsg t]
      else if t ≤ 5 then [coldMsg t]
      else []) ++
  (if routine.intensity = "High" then [highIntensityMsg] else []) ++
  (match class_session with
    | none => []
    | some s =>
      let p := presentCount s
      let tot := s.roster.length
      if (p : ℚ) < (tot : ℚ) * (1/2) then [lowAttendanceMsg p tot]
      else [strongAttendanceMsg p tot])

/-- `WorkoutPlannerService._generate_adjustments`: the rule table followed by
the fallback of lines 145-146 (`if not adjustments: append(...)`). -/
def generate_adjustments (routine : WorkoutRoutine)
    (wind_forecast : WindForcast) (class_session : Option ClassSession) :
    List String :=
  let adjustments := ruleAdjustments routine wind_forecast class_session
  if adjustments = [] then [optimalMsg] else adjustments

/-! ## The advisory rule table as the spec states it (for claim C1)

Spec §4.5 step 6 describes the table as six independent rules with explicit
mutual-exclusivity conditions; this definition follows that wording, to be
compared with the source-derived `ruleAdjustments` above. -/

/-- Whether a description contains a keyword, case-insensitively
(spec wording "Description contains X (case-insensitive)"). -/
def containsCI (description keyword : String) : Bool :=
  strContains (pyLower description) keyword

/-- The advisory rule table exactly as spec §4.5 step 6 words it. -/
def specAdvisoryTable (routine : WorkoutRoutine) (wind_forecast : WindForcast)
    (class_session : Option ClassSession) : List String :=
  (if 10 < wind_forecast.wind_speed_mps then
      [highWindMsg wind_forecast.wind_speed_mps] else []) ++
  (if 5 < wind_forecast.wind_speed_mps ∧ wind_forecast.wind_speed_mps ≤ 10
    then [moderateWindMsg wind_forecast.wind_speed_mps] else []) ++
  (if containsCI wind_forecast.description "rain" then [rainMsg] else []) ++
  (if containsCI wind_forecast.description "clear"
      ∨ containsCI wind_forecast.description "sunny" then [clearMsg]
    else []) ++
  (match wind_forecast.temperature_celsius with
    | none => []
    | some t => if 30 ≤ t then [heatMsg t] else []) ++
  (match wind_forecast.temperature_celsius with
    | none => []
    | some t => if t ≤ 5 then [coldMsg t] else []) ++
  (if routine.intensity = "High" then [highIntensityMsg] else []) ++
  (match class_session with
    | none => []
    | some s =>
      if (presentCount s : ℚ) < (s.roster.length : ℚ) * (1/2) then
        [lowAttendanceMsg (presentCount s) s.roster.length]
      else [strongAttendanceMsg (presentCount s) s.roster.length])

/-! ## `WorkoutPlannerService._create_summary`

Each rendered line is written as `fixedLiteral ++ variablePart` with the
literal exactly as in the Python f-string. -/

/-- The `summary_lines` list built by `_create_summary` (before the final
`"\n".join`). -/
def summaryLines (day_name : String) (routine : WorkoutRoutine)
    (wind_forecast : WindForcast) (class_session : Option ClassSession)
    (adjustments : List String) : List String :=
  ["📅 Daily Workout Plan - " ++ day_name,
   -- the ruler line `"=" * 50` (some characters escaped, same string)
   "=========\x3d=========\x3d=========\x3d=========\x3d=========\x3d",
   "\n🏋️ Routine: " ++ routine.name,
   "   Duration: " ++ (toString routine.duration_minutes ++ " minutes"),
   "   Intensity: " ++ routine.intensity,
   "   Exercises: " ++ String.intercalate ", " routine.exercises,
   "\n🌍 Weather (" ++ (wind_forecast.location ++ "):"),
   "   Wind Speed: " ++ (toString wind_forecast.wind_speed_mps ++ " m/s"),
   "   Description: " ++ wind_forecast.description,
   "   Temperature: " ++
     ((match wind_forecast.temperature_celsius with
       | some t => toString t
       | none => "None") ++ " °C")] ++
  (match wind_forecast.wind_gust_mps with
    | some g => if g = 0 then [] else ["   Wind Gust: " ++ (toString g ++ " m/s")]
    | none => []) ++
  (match class_session with
    | some s =>
      ["\n👥 Class Session: " ++ s.class_name,
       "   Time: " ++ s.time,
       "   Attendance: " ++ (toString (presentCount s) ++ ("/" ++
         (toString s.roster.length ++ " members present")))]
    | none => []) ++
  ["\n💡 Recommendations:"] ++
  adjustments.map (fun adj => "   • " ++ adj)

/-- `WorkoutPlannerService._create_summary`: the joined summary text. -/
def create_summary (day_name : String) (routine : WorkoutRoutine)
    (wind_forecast : WindForcast) (class_session : Option ClassSession)
    (adjustments : List String) : String :=
  String.intercalate "\n"
    (summaryLines day_name routine wind_forecast class_session adjustments)

/-! ## `OpenMeteoWeatherService` (`weather.py`)

The HTTP layer is a capability: `geocode` stands for one GET against the
geocoding endpoint (`Except ε` for a raised request error, the list for
`data.get("results") or []`), and `fetchCurrent` for the forecast GET
(its result for `payload.get("current_weather") or {}`). -/

/-- A geocoding result entry (`results[0]` fields read by the source). -/
structure GeoPlace where
  latitude : Option ℚ
  longitude : Option ℚ
  name : Option String
deriving DecidableEq, Repr

/-- The `current_weather` payload fields read by the source. -/
structure CurrentWeather where
  temperature : Option ℚ
  windspeed : Option ℚ
  weathercode : Option Int
deriving DecidableEq, Repr

/-- The sanitized candidate list tried by `get_wind_forecast`
(`weather.py` lines 36-41). -/
def candidatesOf (location : String) : List String :=
  [location,
   ((location.splitOn "(").headD "").trim,
   ((location.splitOn "-").headD "").trim,
   ((location.splitOn ",").headD "").trim]

/-- The geocoding loop of `get_wind_forecast` (lines 42-51): first candidate
whose request returns a non-empty result list wins; request errors
propagate. -/
def findPlace {ε : Type} (geocode : String → Except ε (List GeoPlace)) :
    List String → Except ε (Option GeoPlace)
  | [] => .ok none
  | c :: cs =>
    match geocode c with
    | .error e => .error e
    | .ok [] => findPlace geocode cs
    | .ok (p :: _) => .ok (some p)

/-- `OpenMeteoWeatherService._describe_weathercode`. -/
def describe_weathercode (code : Option Int) : String :=
  match code with
  | none => "No description available"
  | some c =>
    if c = 0 then "Clear"
    else if c = 1 ∨ c = 2 ∨ c = 3 then "Mainly clear / partly cloudy"
    else if c = 45 ∨ c = 48 then "Fog"
    else if 51 ≤ c ∧ c ≤ 67 then "Drizzle / Rain"
    else if 71 ≤ c ∧ c ≤ 77 then "Snow / Ice"
    else if 80 ≤ c ∧ c ≤ 82 then "Rain showers"
    else if 95 ≤ c ∧ c ≤ 99 then "Thunderstorm"
    else "Weather code " ++ toString c

/-- `OpenMeteoWeatherService.get_wind_forecast`. -/
def get_wind_forecast {ε : Type}
    (geocode : String → Except ε (List GeoPlace))
    (fetchCurrent : Option ℚ → Option ℚ → Except ε CurrentWeather)
    (location : String) : Except ε WindForcast :=
  match findPlace geocode (candidatesOf location) with
  | .error e => .error e
  | .ok none =>
    -- fallback: return empty/default forecast (lines 53-61)
    .ok { location := location, wind_speed_mps := 0, wind_gust_mps := none,
          description := "Unknown", temperature_celsius := none }
  | .ok (some place) =>
    let name := match place.name with
      | some n => if n = "" then location else n
      | none => location
    match fetchCurrent place.latitude place.longitude with
    | .error e => .error e
    | .ok current =>
      .ok { location := name,
            wind_speed_mps := (current.windspeed).getD 0,
            wind_gust_mps := none,
            description := describe_weathercode current.weathercode,
            temperature_celsius := current.temperature }

/-! ## `WorkoutPlannerService.generate_plan`

The date argument is abstracted to the two projections the source reads from
it: `strftime("%A")` (weekday name) and `isoformat()`.  The three injected
services become function arguments; a weather-service call that raises is an
`Except.error` and propagates exactly where Python propagates it. -/

/-- The two fields of a `datetime.date` that `generate_plan` reads. -/
structure PlanDate where
  dayName : String
  iso : String
deriving DecidableEq, Repr

/-- The failures a `generate_plan` call can surface: the
`ValueError(f"No routine found for {day_name}")` of line 62 (spec name:
RoutineNotFound), or an exception raised by the weather service call of
line 59. -/
inductive PlanError (ε : Type) where
  | routineNotFound (day_name : String)
  | weatherFailure (e : ε)
deriving DecidableEq, Repr

/-- The `weather_location` choice of lines 52-56: prefer the class location
when the session exists and its location is truthy (non-`None`, non-empty). -/
def effectiveLocation (class_session : Option ClassSession)
    (location : String) : String :=
  match class_session with
  | some s =>
    match s.location with
    | some l => if l = "" then location else l
    | none => location
  | none => location

/-- `WorkoutPlannerService.generate_plan`, in the source's statement order:
routine and session are fetched, the weather location resolved, the weather
service called (its exceptions propagating), and only then is the missing
routine turned into the fatal `ValueError`. -/
def generate_plan {ε : Type}
    (weather : String → Except ε WindForcast)
    (routineFor : String → Option WorkoutRoutine)
    (rosterFor : String → Option ClassSession)
    (target_date : PlanDate) (location : String) :
    Except (PlanError ε) WorkoutPlan :=
  let day_name := target_date.dayName
  let routine := routineFor day_name
  let class_session := rosterFor day_name
  let weather_location := effectiveLocation class_session location
  match weather weather_location with
  | .error e => .error (.weatherFailure e)
  | .ok wind_forecast =>
    match routine with
    | none => .error (.routineNotFound day_name)
    | some r =>
      let adjustments := generate_adjustments r wind_forecast class_session
      let plan_summary :=
        create_summary day_name r wind_forecast class_session adjustments
      .ok { date := target_date.iso, routine := r,
            wind_forecast := wind_forecast, class_session := class_session,
            recommended_adjustments := adjustments,
            plan_summary := plan_summary }

/-! ## `WorkoutRoutineService` (`workout_routine.py`)

A raw config entry maps a string key to either a JSON object (modelled by
`TemplateDict`, the four fields the source reads plus a flag recording
whether the object holds any further entries, which only matters for Python's
truthiness test `if not template`) or a non-object value (`none` below),
which `_load_templates` discards. -/

/-- A template payload: the fields read by `_build_routine_from_template`,
each `none` when the JSON object lacks the field.  `hasOtherKeys` records
whether the object carries entries beyond these four (so that `{}`-ness,
i.e. Python falsity of the dict, is representable). -/
structure TemplateDict where
  name : Option String := none
  exercises : Option (List String) := none
  duration_minutes : Option Int := none
  intensity : Option String := none
  hasOtherKeys : Bool := false
deriving DecidableEq, Repr

/-- Python truthiness of the template dict: falsy iff it is `{}`. -/
def TemplateDict.isFalsy (t : TemplateDict) : Bool :=
  t.name.isNone && t.exercises.isNone && t.duration_minutes.isNone &&
    t.intensity.isNone && !t.hasOtherKeys

/-- The dict filter of `_load_templates` line 46
(`{k: v for k, v in raw.items() if isinstance(v, dict)}`). -/
def filterDicts (raw : List (String × Option TemplateDict)) :
    List (String × TemplateDict) :=
  raw.filterMap (fun kv => kv.2.map (fun t => (kv.1, t)))

/-- Python `str.isdigit` restricted to ASCII decimal digits (the only digits
occurring in ordinal keys): nonempty and all characters `0`-`9`. -/
def isPyDigit (k : String) : Bool :=
  decide (k ≠ "") && k.data.all Char.isDigit

/-- The value `int(x) if x.isdigit() else x` computed by the sort key of
`_load_templates` line 49: an `int` or a `str`. -/
inductive PyKey where
  | pint (n : ℕ)
  | pstr (s : String)
deriving DecidableEq, Repr

/-- Python `int(k)` on a digit string (decimal value of the digits). -/
def strToNat (k : String) : ℕ :=
  k.data.foldl (fun n c => n * 10 + (c.toNat - '0'.toNat)) 0

/-- The sort key function `lambda x: int(x) if x.isdigit() else x`. -/
def sortKeyOf (k : String) : PyKey :=
  if isPyDigit k then .pint (strToNat k) else .pstr k

/-- A Python `<` comparison between two sort keys: defined between two ints
or two strs, a `TypeError` (here `none`) between an int and a str. -/
def pyLt : PyKey → PyKey → Option Bool
  | .pint m, .pint n => some (decide (m < n))
  | .pstr s, .pstr t => some (decide (s < t))
  | _, _ => none

/-- `pyLt` on the sort keys of two raw keys. -/
def keyLt (a b : String) : Option Bool :=
  pyLt (sortKeyOf a) (sortKeyOf b)

/-- One step of the stable comparison sort performed by `sorted(...)`:
insert `x` into an already-sorted list, before the first strictly greater
element (after equals, as stability requires); a `TypeError` raised by a
comparison aborts the whole sort (`none`). -/
def insertSortedM (x : String) : List String → Option (List String)
  | [] => some [x]
  | y :: ys =>
    match keyLt x y with
    | none => none
    | some true => some (x :: y :: ys)
    | some false => (insertSortedM x ys).map (fun l => y :: l)

/-- The sort's fold: insert each key in turn into the sorted accumulator,
aborting on the first raising comparison. -/
def sortAccM : List String → List String → Option (List String)
  | acc, [] => some acc
  | acc, x :: xs =>
    match insertSortedM x acc with
    | none => none
    | some acc1 => sortAccM acc1 xs

/-- `sorted(self.templates.keys(), key=...)` of `_load_templates` line 49:
a stable comparison sort in which any int-vs-str comparison raises.
CPython's timsort makes the same kinds of comparisons: on a key list mixing
digit and non-digit keys it raises `TypeError` (the first element of the
minority kind is compared against one of the other kind), otherwise it
returns the stable ascending order; this insertion sort has exactly that
raising behaviour and produces the same (unique stable) order. -/
def sortKeysM (l : List String) : Option (List String) :=
  sortAccM [] l

/-- The weekday list of `_load_templates` lines 50-58. -/
def weekdays : List String :=
  ["Monday", "Tuesday", "Wednesday", "Thursday", "Friday", "Saturday",
   "Sunday"]

/-- The state a loaded `WorkoutRoutineService` carries: `self.templates`
(insertion order preserved, as in a Python dict) and `self.weekday_map`. -/
structure RoutineState where
  templates : List (String × TemplateDict)
  weekday_map : List (String × String)
deriving DecidableEq, Repr

/-- The weekday→key assignment loop of `_load_templates` lines 59-64:
`keys[i]` when `i < len(keys)`, else `keys[-1] if keys else ""`. -/
def assignWeekdays (keys : List String) : List (String × String) :=
  (List.range weekdays.length).map (fun i =>
    (weekdays.getD i "",
     if i < keys.length then keys.getD i "" else keys.getLastD ""))

/-- `WorkoutRoutineService._load_templates` on already-parsed JSON
(the `config_path.exists()` / `json.loads` failure paths collapse `raw` to
`{}` before this point): filter to dict entries, sort the keys (a raised
`TypeError` from the mixed-key sort is `none` — it is not caught anywhere in
the source), and build the weekday map. -/
def load_templates (raw : List (String × Option TemplateDict)) :
    Option RoutineState :=
  let templates := filterDicts raw
  match sortKeysM (templates.map Prod.fst) with
  | none => none
  | some keys =>
    some { templates := templates, weekday_map := assignWeekdays keys }

/-- `WorkoutRoutineService._build_routine_from_template`; the JSON value of
`duration_minutes` is taken as the integer `int(...)` yields on it. -/
def build_routine_from_template (day : String) (template : TemplateDict) :
    WorkoutRoutine :=
  { day := day,
    name := match template.name with
      | some n => if n = "" then day ++ " Routine" else n
      | none => day ++ " Routine",
    exercises := template.exercises.getD [],
    duration_minutes := template.duration_minutes.getD 0,
    intensity := template.intensity.getD "Medium" }

/-- `WorkoutRoutineService.get_routine_for_day`: `if not key` catches a
missing weekday and the `""` placeholder; `if not template` catches a
missing key and an empty (falsy) template dict. -/
def get_routine_for_day (st : RoutineState) (day_name : String) :
    Option WorkoutRoutine :=
  match st.weekday_map.lookup day_name with
  | none => none
  | some key =>
    if key = "" then none
    else
      match st.templates.lookup key with
      | none => none
      | some template =>
        if template.isFalsy then none
        else some (build_routine_from_template day_name template)

/-- `WorkoutRoutineService.get_all_routines`. -/
def get_all_routines (st : RoutineState) : List (String × WorkoutRoutine) :=
  st.weekday_map.filterMap (fun dk =>
    match st.templates.lookup dk.2 with
    | none => none
    | some tpl =>
      if tpl.isFalsy then none
      else some (dk.1, build_routine_from_template dk.1 tpl))

/-! ## CPython `random.Random` (Mersenne Twister MT19937)

`DummyAttendanceService` draws its count and its shuffle from a
`random.Random(seed)` instance, so the generator is embedded concretely,
word-for-word from CPython's `_randommodule.c` (init_genrand,
init_by_array, genrand_uint32) and `random.py` (`getrandbits`,
`_randbelow_with_getrandbits`, `randrange`/`randint`, `shuffle`).
All words are `ℕ` reduced `% 2^32` wherever the C code wraps. -/

/-- The 624-word vector of the generator is packed into a single natural
number, little-endian in base `2^32` (word `i` occupies bits `32*i` to
`32*i + 31`); `wGet`/`wSet` are the array read/write of the C code. -/
def wGet (mt i : ℕ) : ℕ :=
  (mt >>> (32 * i)) % 2 ^ 32

/-- Write word `i` of the packed vector (`1 <<< (32 * i)` is `2 ^ (32 * i)`,
kept in shift form so that kernel evaluation stays in fast binary
arithmetic). -/
def wSet (mt i v : ℕ) : ℕ :=
  mt - wGet mt i * (1 <<< (32 * i)) + v * (1 <<< (32 * i))

/-- Generator state: the packed 624-word vector and the output index. -/
structure MTState where
  mt : ℕ
  index : ℕ
deriving DecidableEq, Repr

/-- `n`-fold iteration of a step function (the `for`/`while` loops of the C
code, with the loop body's whole variable set as the state `σ`). -/
def iterN {σ : Type} (f : σ → σ) (n : ℕ) (s : σ) : σ :=
  Nat.rec s (fun _ acc => f acc) n

/-- Body of `init_genrand`'s fill loop; state `(acc, prev, i)`:
`mt[i] = (1812433253 * (mt[i-1] ^ (mt[i-1] >> 30)) + i) & 0xffffffff`. -/
def initGenrandStep (s : ℕ × ℕ × ℕ) : ℕ × ℕ × ℕ :=
  let v := (1812433253 * (s.2.1 ^^^ (s.2.1 >>> 30)) + s.2.2) % 2 ^ 32
  (wSet s.1 s.2.2 v, v, s.2.2 + 1)

/-- `init_genrand(s)`: the 624-word vector it fills (packed). -/
def init_genrand (s : ℕ) : ℕ :=
  (iterN initGenrandStep 623 (s % 2 ^ 32, s % 2 ^ 32, 1)).1

/-- Body of the first loop of `init_by_array` (the key-mixing pass); state
`(mt, i, j)`. -/
def ibaStep1 (key : List ℕ) (s : ℕ × ℕ × ℕ) : ℕ × ℕ × ℕ :=
  let mt := s.1
  let i := s.2.1
  let j := s.2.2
  let prev := wGet mt (i - 1)
  let v := ((wGet mt i ^^^ (((prev ^^^ (prev >>> 30)) * 1664525) % 2 ^ 32))
              + key.getD j 0 + j) % 2 ^ 32
  let mt1 := wSet mt i v
  let i1 := i + 1
  let mt2 := if i1 ≥ 624 then wSet mt1 0 (wGet mt1 623) else mt1
  let i2 := if i1 ≥ 624 then 1 else i1
  let j1 := if j + 1 ≥ key.length then 0 else j + 1
  (mt2, i2, j1)

/-- Body of the second loop of `init_by_array` (the decorrelating pass);
state `(mt, i)`; the C subtraction `- i` on `uint32_t` is
`+ (2^32 - i) % 2^32`. -/
def ibaStep2 (s : ℕ × ℕ) : ℕ × ℕ :=
  let mt := s.1
  let i := s.2
  let prev := wGet mt (i - 1)
  let v := ((wGet mt i ^^^ (((prev ^^^ (prev >>> 30)) * 1566083941) % 2 ^ 32))
              + (2 ^ 32 - i)) % 2 ^ 32
  let mt1 := wSet mt i v
  let i1 := i + 1
  let mt2 := if i1 ≥ 624 then wSet mt1 0 (wGet mt1 623) else mt1
  let i2 := if i1 ≥ 624 then 1 else i1
  (mt2, i2)

/-- The key-mixing pass of `init_by_array` (`max(624, len(key))` rounds on
the freshly filled `init_genrand(19650218)` vector). -/
def ibaPass1 (key : List ℕ) : ℕ × ℕ × ℕ :=
  iterN (ibaStep1 key) (max 624 key.length) (init_genrand 19650218, 1, 0)

/-- The decorrelating pass of `init_by_array` (623 rounds). -/
def ibaPass2 (key : List ℕ) : ℕ × ℕ :=
  iterN ibaStep2 623 ((ibaPass1 key).1, (ibaPass1 key).2.1)

/-- `init_by_array(key)`: both passes, then `mt[0] = 0x80000000`. -/
def init_by_array (key : List ℕ) : ℕ :=
  wSet (ibaPass2 key).1 0 (2 ^ 31)

/-- The 32-bit little-endian chunks of a positive integer (fuelled form of
division by `2^32`; the fuel `n + 1` always suffices). -/
def chunksAux : ℕ → ℕ → List ℕ
  | 0, _ => []
  | fuel + 1, n =>
    if n = 0 then [] else n % 2 ^ 32 :: chunksAux fuel (n / 2 ^ 32)

/-- CPython `random_seed` on a non-negative int: the key array passed to
`init_by_array` (`[0]` for seed 0). -/
def seedKey (n : ℕ) : List ℕ :=
  if n = 0 then [0] else chunksAux (n + 1) n

/-- `random.Random(seed)` for a non-negative int seed: seeded state with
output index 624 (so the first extraction twists). -/
def pyRandomInit (seed : ℕ) : MTState :=
  { mt := init_by_array (seedKey seed), index := 624 }

/-- One step of the MT19937 twist (the in-place block regeneration of
`genrand_uint32`), acting at position `kk` of the current vector. -/
def twistOne (mt : ℕ) (kk : ℕ) : ℕ :=
  let y := (wGet mt kk &&& 0x80000000) |||
           (wGet mt ((kk + 1) % 624) &&& 0x7fffffff)
  let v := wGet mt ((kk + 397) % 624) ^^^ (y >>> 1) ^^^
           (if y % 2 = 1 then 0x9908b0df else 0)
  wSet mt kk v

/-- One iteration of the twist loop; state `(mt, kk)`. -/
def twistStep (s : ℕ × ℕ) : ℕ × ℕ :=
  (twistOne s.1 s.2, s.2 + 1)

/-- The full twist: positions 0..623 updated in order (the C code reads
already-updated entries exactly where the sequential in-place loop does). -/
def twist (mt : ℕ) : ℕ :=
  (iterN twistStep 624 (mt, 0)).1

/-- `genrand_uint32`: twist when the 624-word block is exhausted, then
output the next word through the tempering transform. -/
def genrand_uint32 (st : MTState) : ℕ × MTState :=
  let mt := if st.index ≥ 624 then twist st.mt else st.mt
  let idx := if st.index ≥ 624 then 0 else st.index
  let y0 := wGet mt idx
  let y1 := y0 ^^^ (y0 >>> 11)
  let y2 := y1 ^^^ ((y1 <<< 7) &&& 0x9d2c5680)
  let y3 := y2 ^^^ ((y2 <<< 15) &&& 0xefc60000)
  let y4 := y3 ^^^ (y3 >>> 18)
  (y4, { mt := mt, index := idx + 1 })

/-- `getrandbits(k)` for `1 ≤ k ≤ 32` (the only sizes drawn here):
`genrand_uint32() >> (32 - k)`. -/
def getrandbits32 (k : ℕ) (st : MTState) : ℕ × MTState :=
  let r := genrand_uint32 st
  (r.1 >>> (32 - k), r.2)

/-- Python `int.bit_length` (fuelled division by 2; the fuel `n + 1` always
suffices, so this computes the exact bit length for every `n`). -/
def bitLenAux : ℕ → ℕ → ℕ
  | 0, _ => 0
  | fuel + 1, n => if n = 0 then 0 else bitLenAux fuel (n / 2) + 1

/-- `n.bit_length()`. -/
def pyBitLength (n : ℕ) : ℕ :=
  bitLenAux (n + 1) n

/-- The retry loop of `_randbelow_with_getrandbits` (`while r >= n`), given
fuel; each retry has probability `< 1/2`, the fuel models the unbounded
loop and returns `0` (a value in range) if ever exhausted. -/
def randbelowLoop (k n : ℕ) : ℕ → MTState → ℕ × MTState
  | 0, st => (0, st)
  | fuel + 1, st =>
    let r := getrandbits32 k st
    if r.1 < n then r else randbelowLoop k n fuel r.2

/-- `Random._randbelow(n)` for `n ≥ 1`: draw `n.bit_length()` bits until the
value falls below `n`. -/
def randbelow (n : ℕ) (st : MTState) : ℕ × MTState :=
  randbelowLoop (pyBitLength n) n 1000000 st

/-- `Random.randint(a, b)` = `randrange(a, b+1)` = `a + _randbelow(b-a+1)`. -/
def pyRandint (a b : ℕ) (st : MTState) : ℕ × MTState :=
  let r := randbelow (b - a + 1) st
  (a + r.1, r.2)

/-- Swap two positions of a list (the `x[i], x[j] = x[j], x[i]` of
`Random.shuffle`). -/
def listSwap (l : List String) (i j : ℕ) : List String :=
  let a := l.getD i ""
  let b := l.getD j ""
  (l.set i b).set j a

/-- The loop of `Random.shuffle`: `for i in reversed(range(1, len(x))):
j = _randbelow(i + 1); swap x[i] x[j]`; the argument counts `i` down. -/
def shuffleLoop : ℕ → List String → MTState → List String × MTState
  | 0, l, st => (l, st)
  | i + 1, l, st =>
    let r := randbelow (i + 2) st
    shuffleLoop i (listSwap l (i + 1) r.1) r.2

/-- `Random.shuffle` on a list value (Python mutates in place; the shuffled
list is returned). -/
def pyShuffle (l : List String) (st : MTState) : List String × MTState :=
  shuffleLoop (l.length - 1) l st

/-! ## `DummyAttendanceService` (`class_roster.py` lines 138-163) -/

/-- `DummyAttendanceService.get_attendees`: the keyword arguments
`class_name`, `day`, `location` are accepted (and, as in the source, never
used); the stateful `self.rand` is the explicit `MTState`, threaded out. -/
def get_attendees (class_name : String) (day : Option String)
    (location : Option String) (pool0 : List String) (st : MTState) :
    List ClassMember × MTState :=
  let pool := pool0
  if pool.length = 0 then ([], st)
  else if pool.length = 1 then
    ([{ name := pool.headD "", status := "Present" }], st)
  else
    let max_n := min 16 pool.length
    let r1 := pyRandint 2 max_n st
    let r2 := pyShuffle pool r1.2
    (((r2.1.take r1.1).map (fun name => { name := name, status := "Present" })),
     r2.2)

/-! ### Seeding checkpoints

The seeded generator state of `random.Random(42)` is established through
explicit intermediate states so that no single kernel reduction exceeds 150
loop iterations (each checkpoint literal is the packed word vector together
with the loop counters at that point). -/

/-- `init_genrand(19650218)` fill state after 150 rounds. -/
def igChk1 : ℕ × ℕ × ℕ :=
  (265911736384769890575903866716250355734645020341072742324682015090775596868140918581585944968744743863889994405388254718945484141558682234531254467354831476465003306986778376658614109754851995042857536355990217049884601341623194670628855689206800861542150125450609126678686484145985250502279081080184200984481190934337533379036055364273656938338454074463249496092827069633383653004367395216249553059663214879412716441451542485277192982794957023016770320688396638662510451505767519689596979265264972703077673257920191121859808515526428171909413930482275492916654974369657914505834858347196749787162701207754002943310349617233697324900886717372460522279040523704394353216649586420750150056843320801759806774026557116483705257027282177667903680218208180316331143571482944874287890743524138522376483205370209574306961361330541564473142797957437475209186791298442530104057622218804318205185937515356513326108624711076078856509304231892328957495464293328193018191600092373496727788539658184706605763923496846609206763837705833925314167384483368767117513003979496981402896024258516680691580922592655272854342821814318346361376089450022756474782577038803228233986721242917229791945827121429450835577225553983282993267062903047117187747264543829494699996665009671213668932177602745783908748335891480048366622067672832000262098999625454180487820887443043146612859425844773383609464411901773757679401808956583817335672998126942986915683528447267129735777011156899498,
   3025229445, 151)

/-- `init_genrand(19650218)` fill state after 300 rounds. -/
def igChk2 : ℕ × ℕ × ℕ :=
  (5159020118624937402862698817462567621474841658043376353711091753951890419643599453073606792567246547078856499498225923315748432146820770520798642959282764583589146282363813244118908974813877829584559247897765603632119775746719553871557358236524117235693587521751678950558625242635075609327390743774226690147804673634776161647470435093079072486641256662367446774556751589441564827241507432347782983122053279864000986505674627169385810948265809493154525315328312257729181124133122791696711366547750610391601563389175308909044419144292704893740394322034011299445134449462853345743454303288786897052455376161435521083766668424163323711160306467887176876157951702909859516115528903902224839254124173826266415410682344771522904079597090622941723317620000938643471122315376233063757192624143108413341200887376324674421800593722083323289969410744122626378201671963141809395977505918928969826214888681030047609487973232205813013808839235680295148294328567178473410512539917319475259503936480564786002158247144903611279955043774359195399198973058043158133633170086953076420376536349216423241876794218090239236740959445457729737961079028555934321001232957571813076964286350138196385316309382459656879532312165800628653165711788190189102169973441975896050643836587502743698811053963081164650740649191444827883520007453552211306874696257458049511507092126733690753010545059487857248371124249510689226303453692822181356697076178710708334310129271417811481375281931001039205328068019238063187780341888760062645657958607692927093152913059009273519673581445845780670900472942592387633994034629495756042125503793248345922525701571399884375699804704530672242312321480784504337436059462172875072382603832007893397125277212752919756212630950217947997986761929192779443118013416915169634292648907977581879843672889476155066762103368110473591150654820365391729110456632119959315706734841722730563459026174339436638892179835069402319552212301503260956478145874014671552016122166870424548819407607678710639940589897421119965555501328922321271984519674420432073041227856339778906579860628777803566149430947230547866735357607803244638763213329453811988093499758223096067254413538615313278198921466915720400734255244097813019935028981786998226042040080885072726067089949434046846127187139040882651171948158976660816594464797089453953637446733319633089365302280845396015664947397850235122688480267192705342428119559594912139221977305994691683198350819762165610029710426925001071088633182518702587479204524568200393759137847192924880381832692503761655720157502969743489169487801532967485475811590503482533287043863702485214655568197439952310157795186340029556283010443824598401006433673609920906876021379315600724729092829984948842675102934441252542835401602249414626060822440299610098505435619748741511895576384742620920324117935776629871357227657895965268066517060248954557803233548924998866884815426923853832607166113017222826,
   667742236, 301)

/-- `init_genrand(19650218)` fill state after 450 rounds. -/
def igChk3 : ℕ × ℕ × ℕ :=
  (908601687377839534841267869911765652582783797097995528125083993664967863022118492145008723093652785376957936900125594395754949062911818371690629571073057021210335721386755930978940214709174941672586313113303574540615532561691986049539631901528063455444231461608864237452003524131942164316276764581543810737989807752171276704412648579308347354524723425217201342348185770052541551429345705044212920145408045926525752361568331128628422943620942977764566008264923796082750671961229048089634310480992332033659549217705793346470820441932144663894460927645579005300585669164640658566507651355544138132635411925519807963621195525856614258962796837707669808000194763040265505971451415501103349520557334016125819359904704996537316296784339995560473816542412696838697358420200784965892940491385690800973547837734987809258121665304398078260407402754549465674958037538144173307292231858401608508584171987045901183867976113492431742572192834433480452691851912561139900413664875585322054216975341896881971231746299511004417290393294118760159912694570757277413362402275087057645470111166568261537798640936282238614498832543688503747641199328796824376713295834665825168997348647221971439836980530315965091458526241057918575075324373889365887668383022920827311181065527032308679528631114800435521355505621612841924726075757776768313582721539146217669541608234619635976623835764809975218547138729252803346555271470070601836415675205740088139372830387985045447444057072951404940979790342070432117673107759764516863944067888096413194924774381185528585940845107224210844883830707672934157233334027891501013626269779189347435516636560924475542981334561373115140197518400964903476390468808013935413665020091634731803232503269046466839905023543370754689433166126796646351608826440217931987936824768685756621670233913618747577821825246561862369204476127746276092600967011695643790859299802801039843503583089078338855162646545233889007041972539681653152051191860349143741956578332025706035997581076723690545887191435637236098970897034542615042419215374656561253948351983438894660990019872709084961087873973466829648220021556942408020633275740750943664347728283406211877800588296681381447283250287949979379434151467955413175708509845947134173771891770615235201555206299311534646421896915194181252776525069585519619305493330393734186256784951075748393112745803548422153323817208248824851826641587085150652111039310000940417341429536348610224847517051189228382807935006037613044986582467154792370387965535854249338196604692997872148336920352165256327299089120609596545521135948530355904486938035571601777054212217867184411724216677702006238273326099131394021029794593378586817555698535704842978988410452414241980979340528482789588888112071132857355341428002059928421298210588548943697393262892660349374424548507895046298576728944855888298169183736209321733570148786045349886809809476466143381549676080800717126138223415682139060643318061494584725901175355843320320987488512297978124762981169404277847899489055154545317645771280313843981610166124256509843529782027981015377857855235624605662252761241464491425136940964708762477482596016732302489580714124698285975430946142399092047388783278827278926512776628328659276222994901510486236348372409737273651441748983740376257482460252496541646793523747844792182190620482218033056005415912948246726456072857416103165269706435401106635472930981848729867995195479958234362967687258501948914391151569709927616778764485720008757083202467456007059101768560915365404352519315300034736112734214383779304187322626266794041811593660110656019241611623554487192927929538476710533390120066453548970343598174136460994007738418152058721133985429209388194668718724864934608870977754135174085414050497165799302031913197054213551284638835442211610548981737294407787222264829487872765323820269080004878648639073919823295119521125814918768629411818447070484563721058155399749778311718061723567876022528639512642173149464487787048036573147687408296455077558051561590885018026019385259567741096599788988196858166422364606158844236850088445490527504807804348633126697570255361167943229414604390275932867086342344984664416248970495264050447081131195396284023908115304313762550320073858228135599858082585345242865739035057492336577211442074463203372102963309891457314047605390772343648052744622593549916679504923102096105035766670836668084548960550377130,
   1337937966, 451)

/-- `init_genrand(19650218)` fill state after 600 rounds. -/
def igChk4 : ℕ × ℕ × ℕ :=
  (249808825493616580930902838933975679297670588823244197796883175148436100954988729797108566483651066233703312328182738797040760592093479086408065422426000971344877364276721546690820728461902532167503054881642672143605722766959206063601432360363254720884496166608123157389505942008486280518013248830351239755915859883554625431174891940819756632948629872892587346492053401609742942119417805371322725055267636136013639952832772924705521098055215077860114281290618096900564280795213664153905511397105616304608081218571715841595663617476357961317182694331506360404782472207909168537085052243181321731108100491816631320825766925294370704412464301366314732956108252907364521043737859211961954246082977874945799017918216446408637262086914697535875472586213870131191768919817548503722717457097420569288214120376292181744824386864315588153050491593300229363574555322139934292096888868364052102677837012106766594104563977489958905938574329087475362184738625104173125613249611841199379015422148132087445641340219636610541612202628466222058308086181574409161902755426492407589994715618652416123731653371196635541015703411384134103772741564472775077286547962156860001257221674110507389045572438794699224621425326405504383726289551622189430185137341984299170258324803142745678568778318568644081222262775010977539284730761842252214685279537002460041631688195372424752698191833620420914790240226033216027083453984796443435866726117119789290123392854955148070844440419864845599300179976574578217019940633288249264095595472969353349089072370838423200256746864724767837296522936315557365967826413447456004278664894527435645622181403148564378420136089938350428764625828559125018717116033501180603310451466186433332837174866723603156250382701110519123129646632574158441347328379948259414735145963530504299886891050073089566176561216724711830671960252625891681737072262347252886339265566743365528012195569690453291819978003359894904575603313908444626650771024766640010569908229276345092344453964005430145575100840517674674164888175415648495338697285695764340623155909088672211661223852519648262896717640391624756074789284786216447890876661370798234033697099292531289558636230385364780293848587814249798307589365563899097687940536817179120072363056935203688747184860034744876589166207205277854331301219582976620574287600972902984233995763019032701387612792616372756520884307741855365626790820188779207994004651437258517221710665632205373123743325861501801231210172390176768323473832607039416800596937075317743528366033435675950322046811238671602800104612594360648369552120345923812045646182570659985333730943309652926133183013612166045920070267482132742614527463818390224691761106500021267865271050436399284253377880067779480403066535783922405669804295013449314113456763038877223207918166752147256126871042371235875194487476970856938704412074589528084466047720889510598061926152840788373589148304278711147923339959126855452352589176111717609814676915206452186003011770794408052503426872229417567772939076365526149127407071964856262536665922084233081876192843059030910384706803686322945419450575613294006113222738630047158620375842995706195136715892301754543495484888696056961848851721186803404980946551408005019964213190368984599794100488633140490849445538507260872978087072366606122867495530524816025519890574974477802002426883421798925485528840493683992269846830725110711426156413594659443547352491754853092483124881113804857699040374899264725778860189630089994296107881203261126260680514275887461132588053640825297070493919042780078531894673173395003257029721129359483784863046153484963591777385485808678495636818391888091595995078551823236006991106483239384697092707519231498961879726382683139450541993076324780614009814859525816796897360847542381124075481139759029805428290373452779835594333766172008465383975181377810330451873971706570133188204448114378971825637890175108463473574519882756427702609141816469727285495634689459878905718090768675584286606759701736030800747959521395814721644390268557866692526367177848443199775692431557225726631935145646819486647141286293260070810090091745008778529370787260519338369428961338910495535082575104685896290555298988558829729327631944955843826432524972762743430783840301809918056287851677022898382125595922451036840433816089761240338378720131444410461280880174177483310337490107746136349701436685345998096729060605654297304278687556811870375999613305835908163754130331625613818391134238953293949515107081300710421458332024959623592435150426423002151743526841467594113536520275017805496867258277172564719390315096082765591549152063177839160654361400572240048792814721048295538925393733265477309667658257127089917066904072753658510110053504647472318262591709282398819393107890304322267937699325353959536628804464759280088364395468504540575465555904979609803900863494314917292342583417672665528001305651387523515923477794505044129672206703032250544295058623391243524800635728458010607153264902457411978234280562782120552522219755997000084385977395142447758913177864752013677030274024582483094136298684579183876864315210171627809025158962353376886067980416063563254119919057250381962657234204538684992142410994323881647187447284389940226137904301142658898573044409876940484568424037743631730241114239926495674691341796893170722768373963967823435764900432162391913576543626746523378066000400551856181930220289595780961728034992737437900156204641115996775408816322247374309269812247958424529695786573436859007455400824697759819045914672200818861105119667109440234383731798749854430389789641175160161637147610664190938964911516119395301319641389554431137074140179092446398452673013431468600383617716238930264186756814246460274131659914193974374343300680937953134232590825665910664883536046429895591317281805438809548874210309665034939574683522770184231899377011474446407338,
   4184957279, 601)

/-- `init_genrand(19650218)` fill state after 623 rounds. -/
def igChk5 : ℕ × ℕ × ℕ :=
  (62685089405509111925910797243914719854890513935494713084094713797279779630627496305943786046941309007281293105221577504421353501605599255248785149356818580886163074212016138319710181437623915839386196989339984175865611290932895638485827512283879634622589907034847096838980553398268338905605705315464924834076955485269257682765843392777664062904318116756644819538761883164862381873685805923051342196114892111881287659915424456096361326051748180740843339721465950121631833352165428366344241754810081140762710579390137795215443629123183303201044796731629341661542390258966032612552126580439913324626563213547393121217728067632048719897064596438939163041106934301355643192260261867872030533878188557727018817797219012064641958276099544136480610826250078810896212505254064619595899307426216931651016613164877613570296351724055264357110051005104450572173606849938075379012356137114572525910752676385589168436483206759652170097284388598518122222819376116616668668677988651997615236221431416155794821321118852088948452164682783715959922435191327367306488124638818446090532334864386359317233873012285172875896330714873881780586230596002778688422250420590175698633544778262136505069053046737202152515000629854634631225453245996997340762744567896897683212149150732909707719966588817675821630380251456266588599804209831660991462715440400663143017564651072677052296295930367391822676512661642282350234567553218318066651318510488484545671729568971887621684270732981974442582657502555066960418690332945218280990034155505553171409775830458482159957769211244505225186771766058316021949327301666418107251589707938065072144733816368743637495699897181007119363672460040974223449086641663004605507793014252452324150238463715514559124307431648478948480649031081489229583165223570218974125422263886587593014744330199975749832650568652404661542746543584685860761547297457070273167102314576665676644281998277713093924236551494770138725647883566971887853912300960949802636372591951717316415323846182747445131420005722224687602711525724505110953736568981699982016588947035894059736087136235396798804019434387781559696138411966704777989194870090051835909943079457649936020314680876367897457337488804889342331824364904005266943816631681518612047693872607083945336048154993001716858914072302230374294986610531277637599664647525761147514008899238689946802093944865612982597431648203028809043429562401771290925843222821220221381984318518256971016750121270624021542153515130386081256853244444367484914891752438843250797295149886721543902585582757118492217204960123203770309672216674331373413106027454841661967870247822106376003696537006476355273043676224973894002060133928765135363584693312631060562155459381152426642778209514491263275588735458188352331628933634618912177576995916817414488324819680108333628484452298807271017999262374749573133359090629722111402666396222385680310709557844049479865847370371052888681758484468279513921172987571336140289500145715018352119752770038578015899178947425013401300127437407370742417936980607757405410607208376626705322894782663757703548808362869195819947150150865798288136994832911439410269353230208345410503242199606186650417333579047848825834242257112060317620885151293421378661990197161958015730358249113963865616811805417654957899792836277351433146683316643158745577273742588847277405020330699298979666450169324546781433015633218213248018986767013905101885085728066131985273947793365444250280947765884488609302913437528001802423347517836456663978922564542901160075954132077499502061844004777463229898312792357201472450520034421742281215395838957029567457078867297742321364249618062920323524100796395855490398720473188748064226082130624085325443879193454095100721902723688608983702297802922465778395428510531587340343771240068168890882622394112252370643121994567113348850616779414952571984309063927162547038575769391208822294299053225776973195785292510157058775147687493667385905281728614066936870793483631104130486096422866739022254251631022238998824784309871214211336594149372534724828516536519652291847191320934127662041939033266344757810255450761243406685982638804631309022215852991706323223872506356963395668107287976200691035733250165615782065576159415303394415966535152327550107294310945533761757937224536792146711105700674959937207778503501562879445241463662142281185819506210181780721218897488871995890898495582077564387715740371190275817001449471008660140255770382875594805433223352833476546594040372715841292252983175468170554585838014797017976570586587751089146553833551413146641975370517778330202052282190648141351908509904289169596729111939424597802445523234111653813513351586367960175769546506050051493655326103823629699245586418016468660736051425039803522537493270385743437525903109563398688573456345292160567787373069854610200635728800730405759403691875432721043746233636765094325962472698626875833148826372580999341547042531665331710768365982359935219565301595187067772247975847412037958098451506998773182171027695752045356894447709388159633645629545493246019135820915900506906032640701290570506299065346661219735445730896769091171352761432210047450382980030625592142825700677633624952217795344145832513082782540989616413040988227257601039794195623143595351637462190706636535912449334420058581521218743569834717812580171279915160794789675762903718339466089866492140118823551337811927493524761760551434001520245324751568861558716803095718510972066599595072196209156923318071322517301806566620458899402166430591631348363311478802800521980525250372511467674969151489645720009661369785217086930227581405674315978920044798755483144811069077253851302610194739624245401270682864202663540116818822475326676741780611737275972111438408802370422377608919256570335384654037352344114105999356653180812503717835632673409647782213628400383443178293619326757139369589058612122088577237252104060778375287897543799460272211546791798613974575310224299012205778134871255296492395729078221387894808011355820153110205338707003138385845672884757408327786763143168159295742358655797897448897721796416755370,
   2905164258, 624)

/-- Key-mixing pass of `init_by_array [42]` after 150 rounds. -/
def ibaChk1 : ℕ × ℕ × ℕ :=
  (62685089405509111925910797243914719854890513935494713084094713797279779630627496305943786046941309007281293105221577504421353501605599255248785149356818580886163074212016138319710181437623915839386196989339984175865611290932895638485827512283879634622589907034847096838980553398268338905605705315464924834076955485269257682765843392777664062904318116756644819538761883164862381873685805923051342196114892111881287659915424456096361326051748180740843339721465950121631833352165428366344241754810081140762710579390137795215443629123183303201044796731629341661542390258966032612552126580439913324626563213547393121217728067632048719897064596438939163041106934301355643192260261867872030533878188557727018817797219012064641958276099544136480610826250078810896212505254064619595899307426216931651016613164877613570296351724055264357110051005104450572173606849938075379012356137114572525910752676385589168436483206759652170097284388598518122222819376116616668668677988651997615236221431416155794821321118852088948452164682783715959922435191327367306488124638818446090532334864386359317233873012285172875896330714873881780586230596002778688422250420590175698633544778262136505069053046737202152515000629854634631225453245996997340762744567896897683212149150732909707719966588817675821630380251456266588599804209831660991462715440400663143017564651072677052296295930367391822676512661642282350234567553218318066651318510488484545671729568971887621684270732981974442582657502555066960418690332945218280990034155505553171409775830458482159957769211244505225186771766058316021949327301666418107251589707938065072144733816368743637495699897181007119363672460040974223449086641663004605507793014252452324150238463715514559124307431648478948480649031081489229583165223570218974125422263886587593014744330199975749832650568652404661542746543584685860761547297457070273167102314576665676644281998277713093924236551494770138725647883566971887853912300960949802636372591951717316415323846182747445131420005722224687602711525724505110953736568981699982016588947035894059736087136235396798804019434387781559696138411966704777989194870090051835909943079457649936020314680876367897457337488804889342331824364904005266943816631681518612047693872607083945336048154993001716858914072302230374294986610531277637599664647525761147514008899238689946802093944865612982597431648203028809043429562401771290925843222821220221381984318518256971016750121270624021542153515130386081256853244444367484914891752438843250797295149886721543902585582757118492217204960123203770309672216674331373413106027454841661967870247822106376003696537006476355273043676224973894002060133928765135363584693312631060562155459381152426642778209514491263275588735458188352331628933634618912177576995916817414488324819680108333628484452298807271017999262374749573133359090629722111402666396222385680310709557844049479865847370371052888681758484468279513921172987571336140289500145715018352119752770038578015899178947425013401300127437407370742417936980607757405410607208376626705322894782663757703548808362869195819947150150865798288136994832911439410269353230208345410503242199606186650417333579047848825834242257112060317620885151293421378661990197161958015730358249113963865616811805417654957899792836277351433146683316643158745577273742588847277405020330699298979666450169324546781433015633218213248018986767013905101885085728066131985273947793365444250280947765884488609302913437528001802423347517836456663978922564542901160075954132077499502061844004777463229898312792357201472450520034421742281215395838957029567457078867297742321364249618062920323524100796395855490398720473188748064226082130624085325443879193454095100721902723688608983702297802922465778395428510531587340343771240068168890882622394112252370643121994567113348850616779414952571984309063927162547038575769391208822294299053225776973195785292510157058775147687493667385905281728614066936870793483631104130486096422866739022254251631022238998824784309871214211336594149372534724828516536519652291847191320934127662041939033266344757810255450761243406685982638804631309022215852991706323223872506356963395668107287976200691035733250165615782065576159415303394415966535152327550107294310945533761757937224536792146711105700674959937207778503501562879445241463662142281185819506210181780721218897488871995890898495582077564387715740371190275817001449471008660140255770382875594805433223352833476546594040372715841292252983175468170554585838014797017976570586587751089146553833551413146641975370517778330202052282190648141351908509904289169596819226596300950464193800236813704523601353272849337791733738699109580677790060598181777887651191116040293360709233032126739131837243851799555149741733987013642589408900790854646428394777876081047635920206775336856243129812206211393225451328338029818295344011912223808603447459228664774455600835299101663382407482562446394025644685564072210971776162118237913992938867561108000159871296206317473343603978650819669519408446017163019326253411949341750845046213575067109061998259155051356681925472207526838548285571287447264159165824268773959866960546263163291052219478564533165092572405979176231939954965395316937982457680229236628853614670629986477572995037231115082724638268592978984012988116368098086200843869976765288242160176537224789282867307162687488262043532400005564668761755196055598305568125950825657117198075956784776437945235781120929300500868567259180667776102186166687763464208198417379975538926490711401618365929686412905813140731452858018306462227494693175411317679523205916724054084738420159067389208110478807180138572292547543490551562459095317161643294845569187155005121056903995470289525973796072260138642487963921780544636338497830032488236485409005816755565961898178120549925174101530882215093203066154238980334783259137563363262846531519971456091831368226187662203586665681177999698206208344031162365971829778694790357105700621652554746094027096204768810397777070090961427290099165813892724215575807269710072642865949641315564833724074,
   151, 0)

/-- Key-mixing pass of `init_by_array [42]` after 300 rounds. -/
def ibaChk2 : ℕ × ℕ × ℕ :=
  (62685089405509111925910797243914719854890513935494713084094713797279779630627496305943786046941309007281293105221577504421353501605599255248785149356818580886163074212016138319710181437623915839386196989339984175865611290932895638485827512283879634622589907034847096838980553398268338905605705315464924834076955485269257682765843392777664062904318116756644819538761883164862381873685805923051342196114892111881287659915424456096361326051748180740843339721465950121631833352165428366344241754810081140762710579390137795215443629123183303201044796731629341661542390258966032612552126580439913324626563213547393121217728067632048719897064596438939163041106934301355643192260261867872030533878188557727018817797219012064641958276099544136480610826250078810896212505254064619595899307426216931651016613164877613570296351724055264357110051005104450572173606849938075379012356137114572525910752676385589168436483206759652170097284388598518122222819376116616668668677988651997615236221431416155794821321118852088948452164682783715959922435191327367306488124638818446090532334864386359317233873012285172875896330714873881780586230596002778688422250420590175698633544778262136505069053046737202152515000629854634631225453245996997340762744567896897683212149150732909707719966588817675821630380251456266588599804209831660991462715440400663143017564651072677052296295930367391822676512661642282350234567553218318066651318510488484545671729568971887621684270732981974442582657502555066960418690332945218280990034155505553171409775830458482159957769211244505225186771766058316021949327301666418107251589707938065072144733816368743637495699897181007119363672460040974223449086641663004605507793014252452324150238463715514559124307431648478948480649031081489229583165223570218974125422263886587593014744330199975749832650568652404661542746543584685860761547297457070273167102314576665676644281998277713093924236551494770138725647883566971887853912300960949802636372591951717316415323846182747445131420005722224687602711525724505110953736568981699982016588947035894059736087136235396798804019434387781559696138411966704777989194870090051835909943079457649936020314680876367897457337488804889342331824364904005266943816631681518612047693872607083945336048154993001716858914072302230374294986610531277637599664647525761147514008899238689946802093944865612982597431648203028809043429562401771290925843222821220221381984318518256971016750121270624021542153515130386081256853244444367484914891752438843250797295149886721543902585582757118492217204960123203770309672216674331373413106027454841661967870247822106376003696537006476355273043676224973894002060133928765135363584693312631060562155459381152426642778209514491263275588735458188352331628933634618912177576995916817414488324819680108333628484452298807271017999262374749573133359090629722111402666396222385680310709557844049479865847370371052888681758484468279513921172987571336140289500145715018352119752770038578015899178947425013401300127437407370742417936980607757405410607208376626705322894782663757703548808362869195819947150150865798288136994832911439410269353230208345422227540726913715175580970824574871703718133905523265676227408494610531517902384504479249327570572498694227053340309653270674867519607133218760249118554369072663847912060066233345651245257717860590687062760471641549958450224912973169117783301132846481593826541858873042669580893603960217231795897444880184739708309231933210385412996133441012743956410576219013620483176763994336856360494313831734821211150414162515683379592746154373140797404276861627146075113838065371050234062079465670604628955319375005673664056382922859722206969871915882532938815460124871446881298082033093996799973896686210531442697259629327721351975534655090435368257885177603308175025983444429747995371604907277175480682550591297902672615442825654833354395145854944252340195481902224859352183039691156756164086652563565828873474703408657454428984542077561509810082416467727472604150861999046272740057407935071547933231138921396437896553719819291030176569111860975357098492498486534528367250287394550346666048469699006324234664733987957192136409210404744968854624565985468429617756568267156364469148280815607269285522795502213840574833419436241436542743601850959678408471672174602929963169070734415505892405394041302014792543436417462188126606839012317056298449335522992825165002120172185339535878546925791246351496554025086877810504547194523478753458058640010999404001426974945706567908495741795114140661055570896895736461445963710616126996950955706644642119641909353736116178883475831182404552040964622990042829417431100209161095467085994791837286056506275189485895645026561151067028230949298042428134006532771376503044101387221058456199624300340776924427327516024026736232958119628727971374147275761916716212591546025764216445814939303542529731927764112652045465641331261485809560775665894926982790821148191920757855909834139030628041914921887122256178361894021818726797839047493798400366451167352539281726081948658886336175949977008532558810401506864055537987467349513494813484583489911668891234128672428035202637122178336600010243084834486672989914772060225180171152030499119840004398752810912711778947486661030847465282714493963310601104993153026738796266978637256478694106424453457911680062765134631165290106928698363451447429998270261208998998788866698408526003600644302091766881411693120486655286248631116952683435247044154337736259971398136933510446288641294357464815470398255847410745272302215497686007189323270461997600320880764466881594440991977359984317591579925811012440094712310340515711256522407066929703961859701284725604070846745922800785420199576154055898520391456313479873610286051175595132167188242606971409795022023218586776290174906445466107937197891651047682428897823400024875129491737099738023706160087463218146361385995525302169829401570853992359827683701748629609083236204853848938307399103681151376279548101498674921071199169123603070000374544244501504138526214725033591190161413268361382557291108010,
   301, 0)

/-- Key-mixing pass of `init_by_array [42]` after 450 rounds. -/
def ibaChk3 : ℕ × ℕ × ℕ :=
  (62685089405509111925910797243914719854890513935494713084094713797279779630627496305943786046941309007281293105221577504421353501605599255248785149356818580886163074212016138319710181437623915839386196989339984175865611290932895638485827512283879634622589907034847096838980553398268338905605705315464924834076955485269257682765843392777664062904318116756644819538761883164862381873685805923051342196114892111881287659915424456096361326051748180740843339721465950121631833352165428366344241754810081140762710579390137795215443629123183303201044796731629341661542390258966032612552126580439913324626563213547393121217728067632048719897064596438939163041106934301355643192260261867872030533878188557727018817797219012064641958276099544136480610826250078810896212505254064619595899307426216931651016613164877613570296351724055264357110051005104450572173606849938075379012356137114572525910752676385589168436483206759652170097284388598518122222819376116616668668677988651997615236221431416155794821321118852088948452164682783715959922435191327367306488124638818446090532334864386359317233873012285172875896330714873881780586230596002778688422250420590175698633544778262136505069053046737202152515000629854634631225453245996997340762744567896897683212149150732909707719966588817675821630380251456266588599804209831660991462715440400663143017564651072677052296295930367391822676512661642282350234567553218318066651318510488484545671729568971887621684270732981974442582657502555066960418690332945218280990034155505553171409775830458482159957769211244505225186771766058316021949327301666418107251589707938065072144733816368743637495699897181007119363672460040974223449086641663454185076158010706324798101018734196671404628511912688635566451418808308636133892265834181260854564531500341016594939248124064209997203435142633712075717695904615891072960314423323567324848211814366963222721123833869546134846345517002517654721042224757848525198201287274482162917751163363512790279496827149625467656045224308910733601487110110474885086953414764258085504895691438516711167996352856140267825703012826179925017237565291308796975127280012397119395226234017893680037008021481385200381691058477171347876763235367156621694874447776795606372183447040573919580894269335544891577011684627223184287962482457580066728647735695436820518596341228712097322561379468031256824773318538013269146485140387128945141831729913335294444987328380190114656968452056890954604662597370388957164149398379231690257298315747653559410820774569516660153867079720625318238454578298788357532840084309066620580460239917619685544127088333137290440850675744272301719396885169835043382825060972465584091807892926667360217874678576886673731851850064401271527303761377106417669249995689892840637307827041212616626280424584804546839889510894655836921008718040785633583337668807841715066947813448617567345212823896311507073365911287895865563445124093280122757814395479315069541561180889795236734745739907149676346853654475052006792213886313844878405491756002460583004208456041200138734318986339950813889430661164710019815708638215143823622327828023978354007525861197565248130414229215995455490930198318508093778407931866824764748344265287354498280782830231482173013598381123599265167103994434292097042168782688680587581236687176816614082447352820674018579519993121399554452540352445815733762782628027001998532918772404960758970005698325426255025080396224879354381144826439418119992801827885162290913599441046821092055671009743974477182114050051148397284030123937081403136362362557861600331536034112373727466027200153251241368432616674851434763499866968088879469064823930148945949711617111643189345641604065110624571105553402644648045694210098643494182671679184578970251787767429293788838728450260020093672076354288791958445617712056528287776506381538240851748532824358870447297176904315726438146235435550287749352858152609675230004549047714268318161168041236337405065782400394686234068715714375084794190171990658331852413801468707684728524165878250451835037475268932349590748865765548893728686956466991649215662722200191582771055421676636335829193383009645059086054106785748048340930737364716327698203261840723035235633639693589225087704195314464677136377444907165579918325797565278602514317751531143648666013627646858931306908371800890232303322160176533313037133602724704582808811494646845206380863960801097231557330451243351899783937647495019325094615882756033128491897645629544665343013844168221196942123031215967212773796638994399524231301963971211817895810073379780421941752825443531132989380612953332273547865015186980411983573918333293722478342088532287893916799017007180443973639524566692600429187733178274305148950272827122553098324249904516730903119988160055722237048469099516273946257226291110329466552585596535484112204686160844727275149988244498132737724965951934347660056465347158126176582609857055971120236831804340212618406585234157566304112724446081659075479858466668429532863166478462641624613935175654075999420706317858163154734766574926383224689424773444710160493236123878436098203410420911814371016091794595684147779988875256452420886564470404890303429362481230903529242692789355877729053254266363381201994691705406550428560887156757716266145941571109549819660924753843889864828326992261147064223562387949608556817804626136446505059358463981348248696250239727421350555572287858903049393493838827815655162741392307245616997002978605003277163867785691905133094446447275723990714725521994976218496820884733242061183807110099416478936282703235836169188596419619344960126260649808794829698011447278633509112716756596519096349751270434239696196199721697995800343079494404820229940605162878316581429680678292389590968928054118152403697403284679596818124546742958412424580683497408582269337346997680688377037773377809345355872582523483319165022618118491118718447645233946478593398867463799453955703924963738980297708295548758395144785597319563359136868096009751406441441321959567789558288562954918479088746824720635325092727157254204687013105248144961820330,
   451, 0)

/-- Key-mixing pass of `init_by_array [42]` after 600 rounds. -/
def ibaChk4 : ℕ × ℕ × ℕ :=
  (62685089405509111925910797243914719854890513935494713084094713797279779630627496305943786046941309007281293105221577504421353501605599255248785149356818580886163074212016138319710181437623915839386196989339984175865611290932115962940511019459610499850416421654297376649256803041304825643128316921987043744169409879084284136433611640867412858476896502891756614094157681324895323352649448162893917692179106380288957077563201668390459426339803572091998551931315996317740939075754143147299851939025204820722447410779271296485733257891565808771370436545227084499111115448333997885436335173037420501046243850073482480612264221222671819444710695066605454434583436538273948601162572215223978161986815739061654217349040573009467064210430059192183020816853686678416798235914886327387517926034734105943479989748792561661047971642645024480797816609142435046255215472647387485496477910236668714830571426862716061811804822260429445266760249602419462286803403367446910555179998146295146150856212512355862883321955661676914567724532972310941207686767714256376756262354041017643028944286656236578244706557919771987760004522102942688129652810799315103172331229899900872889610457794098784138466074602333958787761235983810277765012709195612564822601268002502828071936776395863676745379384275474048698539567936813156908327208804069254244145614436825727926315713248767694137358218858926534816329432989329652143570610240258331012125428409477389783306239297319533278808096436683717129205761817025406551826869975703858840839353980788557402638780745973894187935452772259029414540201338854171724604631094051437052936933829466127913958467708893125876740230319649285253281395328352362386112435831767149424929939656619865868644761753921797842682672579545649200618428142082968008087666859815803943236837157751950706866241530191738929210831417822454635437504244785925413050461924091164807116395267653348702523991556483693204811125271893900941393101132506884019742977085115404304170485568814086929441093667145202470387737943707147217559977348949431755174641706490547070427291217241472927236584824005585867455281510263069607131961572505678705416737569130418980654032948324770319008506086793229376880829786499103502856935604355883032579979487020147796384384614582380669854783388636535471141883193945975913162573357942667418284494117743089923211690531591857709452342512664255723281408931668964945978997986786706318919999726564099816237608570181179577947719041054378503897442142881218766187449058231683768070852762187611162062998023585822124326258574894749541074972337072797576395602054907110972945077591890253965961752605694086641824688844263777149707464027573346069353114673885531312929872134318833074101577441183419800940042553363683025732509362991974940564024051275591775162247664217126933632302066452394460549883140949449989592151902855619446715791668012924307833798743797376799795938133061466606618027583283708370366596487084224977124267304826593821960724179761992641880126826574049869485563808111899866804307026308665267152143979009623491914289389302512549564191886465044060233382160342759716780265633016886445951965735109573613773051618549858836635700226489000395754603751418073191478614251555616757170692710342495814260107668458975174048275090208653303249774433360943312878928626382012640600256758880632545954986294300045038578777099342127458213990812324500718015972571548921846625852582382775158528983384177721617009829465541189656719707578331262703441203687314512051370057562124633873979028839756740311202373912398220458183407000707870402816767660667943803682500853955602466202642575417559254343915752179275073477695638459191166923459054312844859995391194564187416546642743037800230263932386397690137123564653063890904202264397953100940025435651462604943192529962949275375136232766688769571042356995881443693309834213595879326125409502053540057351425303912792378354434813541641361403970438923530252668051223493382176584946999021378365524934429650592109658854718974086415266841778263781418411568384839251731317420049087665069265598946807151308119238260681031475569186361053769638431724001295203245259989858864697626741249902075868583968011630966089785851921038198470943362733089774909824284127923420338544589285019789273836236463122837153943704022039536376443971107305261612267156119487044457880858374554442340014251447762833466777315200773042656200182143839973489544674749190152740371577523237631769843694773155905485544095053693230936153628514160797426665720438734111367586975420982143290209797735031299017182837293162052643297277188470275578958965482772952954240438816407986816700415753687704469071274917868501972791099350257367862635375030022284930135127688698472192084493959896224257140265495486869563466613352649933838304222639214890559916154465663970140472265695703358100216872674532566322145543912853417724822080245079586545138917915401543841750618656102116827429687119967842202203023082564136950852399168970914755011142723385061380692686510925843464493689259560817702712649379046451007685337088823073612846750918619319601663652278647841519451379984237867500496710017059761988092674943654271789232779050339423478861201377712280873720882387923344335728044912657469605720629069773978446578773583508578533581186882679235220460426278639536560219201204639860903387252945191683622914012231012715699175409110617151044123519556201005109869363802336512890948520946684763986639484988755339777864034822973056002943304713224989064199726669282613420623414636483960275602492724155550566843465972479644283423173817686600800311003176881240993992455423090811967506338608728213915607727270811105447309548980801637841665638620665436745655432967482218357867722102448698690300301574887603215729070603913922210570717510108929896769712271810513964184486368367650589611908232471883002145167645357943452750748279666136830828970760693795456551406690926041007434213579694694155431639169371228813806815376845227838001740566674360956030680489742793323864842664890205105192813328130585326487710491620192980188679121863797196613878848977526983453816511118694058,
   601, 0)

/-- Key-mixing pass of `init_by_array [42]` after 624 rounds. -/
def ibaChk5 : ℕ × ℕ × ℕ :=
  (33773506489637007645896830947751417851180265331228644372364518344875780168543153467881951181163862181286862698808829125290124627175686731869800874741307487965548930355266317783394240298830462487933448378572569367908179565462266594376627242036896706165965298232266834825444902647263860469080165516091875825188648710781958794987588984859700453180382178219353431089271034305083998723287183733348150441438228622618559382013764620383597058885593312774258240950679662604944697652560009591489741090435626475934666280605555195736731843666926019682589081598391160934762701154692050794442636217272039551770777689096408046771493987934781153455743049842145478093221854574186393743810311013663501714229088997284543044218674738424416385968770558136278866955777095124704735164117873905166250685503757332122564607628479344032566655939644704581548008277138690091575910290196390970376768858214919724058449339084587776718812550676528522169023778245368536626048133657549629430184060440799225701169391785264317567834528226883071807892435034067842673728492881635661593023582745385676224291324157697048429575827289853979478063252892687743854529886256153124060327221473687350266519969238003964853121962627802989864941081280485100942407377781788260385980519553818819930199438938374275704597110041637528827679932504137245089410381619775415752050116198407727659860461313118485789625295737585551627620320004898122739218546602762137095402704902124439898328009382454226227607122338919403997342627457836655912577785881737460049474636970495558073683479824398381762473355001415914823298209079466902912005781393189906894767711926072224052269127170984669585989203518786946549302630473038248835237230615396042649483021731352142638203851727985513898990983406914967220762427359730243419744990538091226168033070786769366992436808826473913210609912938229579972164363969071005685130716646011420702081420416384481288726757550236314603192767479786611776764522444376139418035330017688722194657593472817933698936411960869867356419443574657039519834751055280561855100146829203672363825831860134996443718368634795979628521856894205399876277128685891923766447379782363157353599465332586258297697961188260902953793009820214201795911764423185834510092205950855262676797488161498298653524334435216164022932227646500304276717509065131141365920796616816951569139907017662998109752663750660920737484998152455813006176361158981231790068032102898826487004770385290021323650045480836285750017093467862681663542388322378772608559897414261994736815884429750604574733498251614725672172513855578910584419130548420039229671240468021073057760357840285208319549422829443246837482820431600169157700780949354422403093037578420565471351562117466120658177697721324383724202721286454937303796836031571483014896696220232675310472367294638103805272780292281684023915331497831335716626159811129905946219257271221544692537825685211562799484075177381644990161283240409398788486135486172758805495128709566901136219865897453408380182692704805722202091617702156784707514173572772834376659601457245606310535840316216263781494922069575336130988019101044632912998335894966769237394293464411320824791805136310560436777231548601431081217224078586495854800142217139711463809728287879841465514197704647171032806105713626413370050164619062022980306906522015128612900352363424708038324992099411629643518664975552266525038327131694839879586243387751445433189473605470156862524456362518625941859233064097537391433529233717294506442018270772116543006037780174729184748853598711190216467464513403977439401168572627799625651942412164370285832383869953734322973298947097109340771240901488336975341535514335112220190013350276146318758772368322567440517531158417126927278290244362955572874462871683518938849155653148086678084653170880079148064626762945254058974602694218572177541859909245966554526961950248816009479740623005142883646682171481558803939344253423735072691027740446370402104599350470391310391971149567269350867587365874152030282052401068347176449994588253289668410666245315478900579005061610899499460753858092226090157159977023888966471310939343534302106495227958325439240274113164166804929644414645913888124856392735471881339513750468217566144794226200541507767028030553725479794100477817763753690254306923764138656292191545653842520014629674638233588037938303806827284632838384282297018824776114720045821529975457075847556025734817163304131839487802766401669664297541407219629274362821351326148586743716819088104495709460022203627184309023262398855491767699981800055250618884468080460864761907202505662059411060536721197642107108889482764981027444071665362197958771204607738235635023459578898629181282292527874880604702979012019049302611523234105212131050361508669400273969219769911272662367709021174025307116335353968598799866504519218206082554325704339008919879080475156237337957326606198376713061028285669661785989494994441561049445456802811521044021914213208480112541420367251023514608355998180289510100622809895811036822049240812369009658628415843816844626903403464028490666785875226139120165232214878960447862155287149491656772933447255092269989812503187996079285490646061728711835214649709503671389764046672815754720803609108082983725799268208736751513316847774644809493000046015162079187934953846500013574321506395544350131439330545510374057856648232545677040852151022594062956797643747235954145680667591306317596065705421137305984649975778527611050733952255796730908250050311764550327208727861600810808724255730329422514088285402594722537044648308136453695668387477493044686127545177361155088772117897654102470551749482730231839413104917298116909332179369925906916001163048282058943312039521281934398155680168735527045172224934539817316344506854306245840779987668488240919263435540105754224717989455349659657272590436010546962156119699214093591019429475933622294573359672417385737118270844339214178809065080896835343898543125407555332083892593758145879518570685095346550227312832111634374826082157819753075628595279534836940847034400018114577390146369902483091535267852010285416983,
   2, 0)

/-- Decorrelating pass of `init_by_array [42]` after 150 rounds. -/
def iba2Chk1 : ℕ × ℕ :=
  (33773506489637007645896830947751417851180265331228644372364518344875780168543153467881951181163862181286862698808829125290124627175686731869800874741307487965548930355266317783394240298830462487933448378572569367908179565462266594376627242036896706165965298232266834825444902647263860469080165516091875825188648710781958794987588984859700453180382178219353431089271034305083998723287183733348150441438228622618559382013764620383597058885593312774258240950679662604944697652560009591489741090435626475934666280605555195736731843666926019682589081598391160934762701154692050794442636217272039551770777689096408046771493987934781153455743049842145478093221854574186393743810311013663501714229088997284543044218674738424416385968770558136278866955777095124704735164117873905166250685503757332122564607628479344032566655939644704581548008277138690091575910290196390970376768858214919724058449339084587776718812550676528522169023778245368536626048133657549629430184060440799225701169391785264317567834528226883071807892435034067842673728492881635661593023582745385676224291324157697048429575827289853979478063252892687743854529886256153124060327221473687350266519969238003964853121962627802989864941081280485100942407377781788260385980519553818819930199438938374275704597110041637528827679932504137245089410381619775415752050116198407727659860461313118485789625295737585551627620320004898122739218546602762137095402704902124439898328009382454226227607122338919403997342627457836655912577785881737460049474636970495558073683479824398381762473355001415914823298209079466902912005781393189906894767711926072224052269127170984669585989203518786946549302630473038248835237230615396042649483021731352142638203851727985513898990983406914967220762427359730243419744990538091226168033070786769366992436808826473913210609912938229579972164363969071005685130716646011420702081420416384481288726757550236314603192767479786611776764522444376139418035330017688722194657593472817933698936411960869867356419443574657039519834751055280561855100146829203672363825831860134996443718368634795979628521856894205399876277128685891923766447379782363157353599465332586258297697961188260902953793009820214201795911764423185834510092205950855262676797488161498298653524334435216164022932227646500304276717509065131141365920796616816951569139907017662998109752663750660920737484998152455813006176361158981231790068032102898826487004770385290021323650045480836285750017093467862681663542388322378772608559897414261994736815884429750604574733498251614725672172513855578910584419130548420039229671240468021073057760357840285208319549422829443246837482820431600169157700780949354422403093037578420565471351562117466120658177697721324383724202721286454937303796836031571483014896696220232675310472367294638103805272780292281684023915331497831335716626159811129905946219257271221544692537825685211562799484075177381644990161283240409398788486135486172758805495128709566901136219865897453408380182692704805722202091617702156784707514173572772834376659601457245606310535840316216263781494922069575336130988019101044632912998335894966769237394293464411320824791805136310560436777231548601431081217224078586495854800142217139711463809728287879841465514197704647171032806105713626413370050164619062022980306906522015128612900352363424708038324992099411629643518664975552266525038327131694839879586243387751445433189473605470156862524456362518625941859233064097537391433529233717294506442018270772116543006037780174729184748853598711190216467464513403977439401168572627799625651942412164370285832383869953734322973298947097109340771240901488336975341535514335112220190013350276146318758772368322567440517531158417126927278290244362955572874462871683518938849155653148086678084653170880079148064626762945254058974602694218572177541859909245966554526961950248816009479740623005142883646682171481558803939344253423735072691027740446370402104599350470391310391971149567269350867587365874152030282052401068347176449994588253289668410666245315478900579005061610899499460753858092226090157159977023888966471310939343534302106495227958325439240274113164166804929644414645913888124856392735471881339513750468217566144794226200541507767028030553725479794100477817763753690254306923764138656292191545653842520014629674638233588037938303806827284632838384282297018824776114720045821529975457075847556025734817163304131839487802766401669664297541407219629274362821351326148586743716819088104495709460022203627184309023262398855491767699981800055250618884468080460864761907202505662059411060536721197642106849562424617915014503523967728881068851676791901540594536960968752861804581100151864387766381641799366323710682648066825476825846449046025732601202913752765893647060715817230255459716646097737101662528242075230628621749456685884692185568653507298830385993403567595354426898799928339957959471100779848088210432220106190061408666432232798192084834818901492271889699234379383532362922669621909844415324533900923549072996856518084042487861104010109119867090468060994864094963278266293767874008439414144434486091495379116118199036938414241103222751382703205699627389360553203304572914965398069591250834320722921856656085757630295889098873385668144067415558326057495213306077793384587447064479040535088358253005643982644994627611641433706997350518697017376202750839515817263415454516371180009069694324916126418363648252165945080952106511300870606682794653730327819906335394689153543929701823072238632457214721619250710400366718062995078733145010474809731509827995117966361771258267447523408576819374282105581257238831594417183820363984173954359397308033419654722609113515733332977784507779880770778719940929338720880236488476169033531431860417311434736517584724723574999261594814687544245312128429890608935783656613651548002200406085624667598191685830467118864920367762125845247581220171925533162958588049918363482081298593886989075392976914241232364074670649955063906870575026094642745658788099185150731925429620788503333937002998166056931886491013771658015706356367895,
   152)

/-- Decorrelating pass of `init_by_array [42]` after 300 rounds. -/
def iba2Chk2 : ℕ × ℕ :=
  (33773506489637007645896830947751417851180265331228644372364518344875780168543153467881951181163862181286862698808829125290124627175686731869800874741307487965548930355266317783394240298830462487933448378572569367908179565462266594376627242036896706165965298232266834825444902647263860469080165516091875825188648710781958794987588984859700453180382178219353431089271034305083998723287183733348150441438228622618559382013764620383597058885593312774258240950679662604944697652560009591489741090435626475934666280605555195736731843666926019682589081598391160934762701154692050794442636217272039551770777689096408046771493987934781153455743049842145478093221854574186393743810311013663501714229088997284543044218674738424416385968770558136278866955777095124704735164117873905166250685503757332122564607628479344032566655939644704581548008277138690091575910290196390970376768858214919724058449339084587776718812550676528522169023778245368536626048133657549629430184060440799225701169391785264317567834528226883071807892435034067842673728492881635661593023582745385676224291324157697048429575827289853979478063252892687743854529886256153124060327221473687350266519969238003964853121962627802989864941081280485100942407377781788260385980519553818819930199438938374275704597110041637528827679932504137245089410381619775415752050116198407727659860461313118485789625295737585551627620320004898122739218546602762137095402704902124439898328009382454226227607122338919403997342627457836655912577785881737460049474636970495558073683479824398381762473355001415914823298209079466902912005781393189906894767711926072224052269127170984669585989203518786946549302630473038248835237230615396042649483021731352142638203851727985513898990983406914967220762427359730243419744990538091226168033070786769366992436808826473913210609912938229579972164363969071005685130716646011420702081420416384481288726757550236314603192767479786611776764522444376139418035330017688722194657593472817933698936411960869867356419443574657039519834751055280561855100146829203672363825831860134996443718368634795979628521856894205399876277128685891923766447379782363157353599465332586258297697961188260902953793009820214201795911764423185834510092205950855262676797488161498298653524334435216164022932227646500304276717509065131141365920796616816951569139907017662998109752663750660920737484998152455813006176361158981231790068032102898826487004770385290021323650045480836285750017093467862681663542388322378772608559897414261994736815884429750604574733498251614725672172513855578910584419130548420039229671240468021073057760357840285208319549422829443246837482820431600169157700780949354422403093037578420565471351562117466120658177697721324383724202721286454937303796836031571483014896696220232675310472367294638103805272780292281684023915331497831335716626159811129905946219257271221544692537825685211562799484075177381644990161283240409398788486135486172758805495128709566901136219865897453408380182692704805722202091617702156784707514173572772834376659601457245606310535840316216263781494922069575336130988019101044632912998335894966769237394317630938618611356873018472145956158589166757202533864237578953800277458485536510315180889570395599800447828855361498795870688783649671090347052896332874383785989580566450146350489978934994939985445561760474695826642750377138576550777426155931740303031735309527841359112247294412457162620726335385417689185109703184515229832717740875240565429293638038855662453606327257111342085234892119465221255711924107590799960721685838507303263259764253301654191536755063351806483821761973238555801805213117614185902888092002628446492807235239642920935655629710822966196374433274145492092029698592944658915609442527938405582797395434929315975219924373324196749546534770444687145795499679256481088204903301924443512648365576909842283679026083872000027377338700884828631420111887582215864145318576378920801259357378638615368651649628887987961410374362010083539411024121372283720336801134441313422654269386854185578207108591195541624458801912952207095546375963033703490540095991571493941464126422275706240668621384054600740138782694674967278930289064081978545964845487078910051783210473912029395635844622501153253548153788987060391285005408395741458925409539356487505037227287111057551750900080866070389783750175337526976374525235242224640726519600752317470728581235540147406523066924696522285408982515089347252451030541524468081666305239119933712007913386059144799859735085970303414763675076668071761909423603835260498521422230272150705864518241250724157674343711065085374000292383121410841213124051799397684517422386862263551481375968514019313087528130101654297367692522852753016524633021461774287436083661859433817546315635494735242751587496604510388454946659573955374325838612627898715355041739042112100152433776664039858546250522127084300782740538118435626084725821851269639843620460563874847595435900105355398506914107424668012152288247459013615539031681270941164143681173666167179491663818529961361701957234226813770391653959355423240798501479958222012782466620775308158778094883665481080776564664477748060042202346063282044148449731983923489993092467340569148651203292906988883557508832096317792812530453587182215949057930975858936858726537536023095466778057657043391024340654225874984393865646499342655416629131741213626705120546957395828813790829736887025603740569891753159018605234778707775972000169077051763547575658935949665014444242391273544149302516367012619940915787815220001093343149390345986821303667076789748994293379472000509056296744865727342884238161156375320460859901775217906422101719286405944602255468180485592558925591087348304020340603077610298460304095876903483073011727319690525786697073578783244807855348175876231473653972528126614935526615125438008050625125778006756803450340419502428023790243777825010849956189848168241187728357846206156313161593415993837495346249582151723390663282180900074564732694271299655999127375226994817593527672850117015604751062247863106829969250950437340845653606935,
   302)

/-- Decorrelating pass of `init_by_array [42]` after 450 rounds. -/
def iba2Chk3 : ℕ × ℕ :=
  (33773506489637007645896830947751417851180265331228644372364518344875780168543153467881951181163862181286862698808829125290124627175686731869800874741307487965548930355266317783394240298830462487933448378572569367908179565462266594376627242036896706165965298232266834825444902647263860469080165516091875825188648710781958794987588984859700453180382178219353431089271034305083998723287183733348150441438228622618559382013764620383597058885593312774258240950679662604944697652560009591489741090435626475934666280605555195736731843666926019682589081598391160934762701154692050794442636217272039551770777689096408046771493987934781153455743049842145478093221854574186393743810311013663501714229088997284543044218674738424416385968770558136278866955777095124704735164117873905166250685503757332122564607628479344032566655939644704581548008277138690091575910290196390970376768858214919724058449339084587776718812550676528522169023778245368536626048133657549629430184060440799225701169391785264317567834528226883071807892435034067842673728492881635661593023582745385676224291324157697048429575827289853979478063252892687743854529886256153124060327221473687350266519969238003964853121962627802989864941081280485100942407377781788260385980519553818819930199438938374275704597110041637528827679932504137245089410381619775415752050116198407727659860461313118485789625295737585551627620320004898122739218546602762137095402704902124439898328009382454226227607122338919403997342627457836655912577785881737460049474636970495558073683479824398381762473355001415914823298209079466902912005781393189906894767711926072224052269127170984669585989203518786946549302630473038248832426761322458355417401090768102995955990599640573728871483315046838388428117714222904350890129183882583777018653837289043667338900010306578583436798913140333810010066968707959090168812286302863812451390541174196429767219019314284833271319828760296243603109988013844363980320279845476493005479114699033998742050958047774239088034565068544385078329216843337745768518265907826395150749900629167545322126513467083954826376023661137534430024056766845513952683421656501288116117238422377227051338833747597915494658353907677502220348720561985027835695110128568118872368507097653005458817726005589022111018519218977587529502555815029615184653199014576434720917067911231495164277890850121715470373130421566084808049076447474590398384800892898730728998496966585971778638352063588047793597131657174011729882949572249477007241351309050303037712565015981356620016699138316592156491769823750113039887524210813739872445415727761908683847179078279811467362769495206560564389164125530449790570499237063730204025362939916548564364458364345298929947406379995880489227499503253097812801480797343381891562500247494808593782960969077393360417495564710537353806181686334830868895796057181470566051584859794681150095871554558039768681638655504088556124250233194790577553374758009649549255532281699495737271229956260407684568666507095730978266773846883539870716324636626416037711350542359084258873224468386122984081320526056084958979366095491794798849916411819372219510934580392456929230714754538170026675693125970042972428076533168191484645163731368915291012723948697137373432337150236124425217456166712079433866749501470470763864994605811685315335960031511652891661332212320669503260104079601746952319174697541999841170700290339232831307994705853810724079859045739117647310454779051792389029548144155864162566162473176181734795634002272426971397611695068275520968393274278384021749409358066287613925821732528900413280874424767691467811687879620498803531388269537442976772392963017805572880642358732474668887611316619521426961712764886162523068376949609484441083113391949197873707181047597139494165558883784172182951759708419769521324893254674056819140360406399618108763653502126525888908535713773304145776819804432121542269596984776692528090266377118417880413917904769057657598890157331625955529370775779189288550724918535440866046142833286990656548652243414529505457909038843134960044079831850324817049047420598381856221565988645285357036717885629862303974344573854341678675385107291641110043848630296685313967871376815598032913004891536257572978806704396770953018829764546075528293975425462279522870753535384229043175655425957587970128599780030414834629641592834848568846824483712034658641226437314206188943258501149773348350140088835708475902464442770111328836765506231763617934171198212307810665573150751824415111724305903631075703360020505576696438290340128238682766339691310991396919347275055989636767996740529591834692092829750041325818626102765980732360044670385144392173951265890769390197598906815822611448841269525343518025129642022051431430861435403061299031243605124726832775766957126013749598859812295296004093345723089916164796496653475726272500301465064738829936278432912640389375629460261909987447778417521375027335567967995441909962388779301453293848845324451914867515787186181095382397101228818428095781387490800846533362471433517998938132451340734914870251200763981613033849958690224909068251985304885938622993301958164118765873683296507379289601945398080513222970390873920644003671673952191299741367256608534497407299892461900010109310278941655289164273390571428822321213999674596359538432051328798090938320716565275088859589002067608128620913984214400176882191579264691899024567943734779743576296947466081157368280582424958638521054025867429020867839823260669590651027164044600056417730465175955173703478794591781990773633001542628238670974003191663870437754514637754182665034916008617485883973563415516579634346063025921791899825598265022294247154748950179466525127767508351989110263217339413326046116243693441366786465135324094521916925435373520819774794813603699367759454761493865917478012115841342201832434313776002864116913521916895549185522800280706986593493727809592657416444198384743344971390526144059820022669400165247740620977060600290963957483865035381655079242533461420664772401526020991281086870588389182906095496304953062170623999874595275287,
   452)

/-- Decorrelating pass of `init_by_array [42]` after 600 rounds. -/
def iba2Chk4 : ℕ × ℕ :=
  (33773506489637007645896830947751417851180265331228644372364518344875780168543153467881951181163862181286862698808829125290124627175686731869800874741307487965548930355266317783394240298830462487933448378572569367689326099613501286721136238187900495724192682845000513563256717757823603546098605779382325211604915927722519384312728671847300511280726828537010201984752203994721324006611650136093874446194660571497715101398430789807806991256405554979726566953118713597533933146091210297404851299259837518536653486415659670370322630332158474280175125338791853972739393234561171125662564258905267540072372583215127609141355185040474821940552448343221215328091322871692541741214155741436351740324588102540834595313033022839826710962264998264721310986143511868305860228085214620963571632881390751346592909984742383076440747520089171895093069744496614987388727640533994421124039073472721508938729012997202568565904592131017987616148260172368140241206418915539553185837522678890513453659578225197429840608767343886636746164052684450604614425305329653455203403998567897599589962861176401015505988011639233224632727906385872475228967857093097574953605935904958420587837733820824433902050956550140749123291443521700048776346651983258254452162752265633247664576573617574123817765237048547251635476343170739379982518202902515693973047989278407312415290240209043364227449964801787197718470116579230665017603875251147373707210379805215246439529569202263759994779255223438735450705080329381963680563952739536495250667731744147969341457509929980740776000544723606884504338888391938081918128633481263633784071949692308335586782584167322272079668397891641878001519724063403949116936109717991735688921030168442209744332597878277104927038478373802852883900035992377943181323714906689641434596332114316452462774530149840467073510032664507292117160390916011816006699799913562181851259807797914920768335783922485592724962705086829770466731840085523449699835476222236494747913467606763556024998040647707429680464271492318132702678745716541361518567539704770444894716298874574349613933597282398075725577404392692928302355012803793633026851200618608882397448442826547125669256497324164742568615165296501261423346800027080078387355054336307900828783200189683332604138413489138270815379061897648252215563182086464442288630771287717589698967936245909311630557192287109662507112348759891239265269194617042495509491510183815350316264617938664208688677560471296887343942273967752716949193221651835221650555898636925029502104840385364420403294211317715833233522298101277013719274702547377758614938290573966707152973725296135392692875718559340168300504489956639522098721399741622156129245664543172339118826115264439977105486365041480775951016079797326543001582478109721289300691144109657418186960909617478370526981844099595877786661232089003313251087013630676015504951664290712645628098251793425806292273952631101079795342598185291203697507711272888300284407445528166193214612407703261751214648446337531674453150685306042880477266838476487219999261619716811372781093446599655776857267662564267957374586478268229881135682003466162857541837289988245962854280123412413411082650030604797056413732548292131660285365834262905293754562331215560042256693026895583176357514957050005008755011197279305182969777512254632154226683678295675255502857044293730036952799625940200214593762421336214393880036612291513776147290828158044486990566613904684820819993489764938182955506509887435011981526895130655252902973650243330470083758947687257233684162944445727853012165508935776442979296758839519722744833825221481753793778712291063196502934149872438438226346597176317622714706114226648575988903394717710665609637256320385467161228313769604775423686965111412423050002172430901884452194558665442925689581646261246496920340261927467298431648827355016145793376718705648609625101198318861221321319647527865524633787984291222153285897408877376507005972354525829207100924871998369423777986760191461777271528191901449454836438592222112881822398802595464130767533747242212788356368106713467062429880096443824545818848215637767928595071796389935634460826250831467371843028312349384021416695544703828989981113509737974813204070021481958195891252363837088519289297482881903454416016758983135465169258803298358177964825038244442861384908082764527085722946676057159133976502915892637013042047727815992235397337674027316512616204228469623145564246695212903730998646904105115929863750506076034887394322534537631480195537153604554291918233905299378478242478240535431882525454192935736788510035177085956658275940328698827233594792940341090335379902170945386612760183551444814527187156833850749105107096318847285709571024121030578248442482138846298178558889735832786430429130044786182200715731901969424516432938971707161438794070958477561422937844641831219518787791533888956033525031501137621245897591078192894272175931996225178034437325719684908047553291709165136560883326696652239204826249838411113301487030659753072553658402198866189150886208810812853084715811824913414038459487988574801677802123673646386935291857603079362331839822326227132417541598370580700336424820843442137967993099027693654657301375293932303276589269266796359989146727172288938320207030635436511135714589357936257021438722562180046112728943574409205226711262553917353987371370477201407919256725358182158094714925528596140487277455231777309755305713000909622544451450133653633278003909676484075243763753191463244612798388103205569342327948065063043934599938854520919658766567826755484390284317830953032228264373776829571707895595304592058565191733684311138471878831154963001429920964313113132054777424040643401120771476189448313226660052229669279751998945317318985560097437526033599324855696147612667090814563236188256486834048976743943088393491412081958091767954016199283603950679376894562122883761412990423061383978472144716366684441260080615160672353111732526030754687352198884801133279995302672419787618799864480012905771601386771124337743027481917375122256418125520058029320029141341800877569264774267415,
   602)

/-- Decorrelating pass of `init_by_array [42]` after 623 rounds. -/
def iba2Chk5 : ℕ × ℕ :=
  (82663673431515298878348125892076922365783069757798526784244050598313937512767946555105567842135433541961268832679564447481930064532585187162994848009574585122686978465536439186381119346285389971015664497868787229171546936942409743491868498635940684276698436506858484119070421511331132895304993849329208393304167080010636930173614624441936828135292295563718855043520888652492240787378188287948756429859678131320313149722218900291805028338565883078467138401494859521575283099145981678792121605979857514686793130943330313770376111649808959951136893973580829458877602381614555916176041877040780308989402930592924948451008392659903891078302468096510073054561268220357432569293521497131830922044988516040316696461890252658891937812137077698326841028526045017829237605777094083838852105281119467999132979162337968258864765593801439178690440189871328494739303638814863268844841313736550299766837110548953858269079978575300077403214500257399917385654509269855280076866593554001298152333401922224966669026142300705073497006787091546588638315672230373963619276949115860857537915195517971528759783091402967302621538207894751586345254545658890812158326957740026680361046254661091788809833141626179961244339817613410573958847339378373187693619441538637775379117387231005821087272257887575588666415472628576633153140593663370835676581874735924421676041910321962267240021638441198216858885623188152818149414018042869563767627928969512731857081428011617730744208084126530327493218283188330237634627043385971325726381941006315313020942714598258310683987876910665727287731188639790124681293867861646234928635170596055347748876320543460563710598217691119774835137262721653203268760315335132369835811988465882558753871413950567187950888491278778708993179769359589212223140338911648929104812059421030013898069576284523018150963896668952801120411674791778429096110671166995381822858827748143835556358862070943257843870596573540637319545893499686427023193503527501212077208886574386377910506614773834017585095571295086219028523946090089278153258661151101652418776500307460700083973906927280045011707987505449833896480127873306359431148607415078923831461270087142319684009331203361762220712446499023695587145239836507803911814882161915063108199421454462180373951176940080591277458243306990424535174590565608117888570339351020282643416147931579001026071809341119535798341882348591866021341816283858477697743453078021468501089065876249217344973525146889733762953917240334288868075485850723093607653871568457710689630971657574294402882195859207485343534840350175651994341004124212724981721578117943060373849165947808571471891508735080997298866016147935597339741326699207245466538208100666522864891933314470052847443745362970439547486838679354253152706760662870260695765537519959477479236623427719242905028476959368576490782805659127625261440007910351269462263618011075338316276799690902972302414342081963789515076393143995054867467145996471721122262153391442956285601802605476397557566559450267605107458855443216396947043236466552312718601892346433056767222165007631025666329375837184765840658676984284898489439007535391352662806494262031897013250263783539285102395455285405586348388035372015632823519802485179765492948982546612526153800948715917650443950850763563724409276334725236486125780651617723156297129367448296429400501658864742787022386577801752109777995373643436257912637333933711048378945228596862424214289259619104637366641443538704731253676073244211636412676550633624664133121478778776111533665195661274450601309176889593940105997537866071103429448805421406604198813742993998233955753216345778991410288420119110747377910893206478621845275458581206595814392549010399578388394455596558399177559012440595257880737519332053733088704345198907442504378387452888582487598736159677336669375019252418034169126276810242464452009879946391356983340052344519479660054088553061453767842109352665840972474712870381811517528648921344229102378851273254037244071546208559258016189186158802618570846122407575805735030986258251196917519792348510966228747838123198341870470991715526936441643149113847485699378420789111139857383241164952960343291754521639145070355966654445817548644348650273031627831871495744424251118353351051222881461179282505742625883322828268681808442704003090495155928716789727084061892349514338658395371297819336306263603709114744903843904591124462052342531061608033894644700791602929417769154835809424656043301921926405984733455919977169569562649687764138614136181729139101193691064746253805507687858731219097977446277929944857559114214479159089992700650344331766417996128520977707702114605234270300941059024559973626552283595879490977810574097596817932342925187862210088032263679453624373251399815432164509970923732755899633213695217078969529292889501568936211411421832673008676464711723258486764387687868195022143610469168114413816692593499503362135502793949170225772523155861923786490569333307891612009190037098908912854496416224567772506087995574471691774742094533496432215025256857202341100016144546835039088618003145675471911061031651823919108846562898430344438333412649773016774319745863312578255622591730450250454049581974952521575677756510885726227820993325710142791982262002791705187233974393058765755898055574917073353369401448705875691147668673637031620118190837133060462247401748650653817816500141693022196589991967774605824182010372414700031888464714730496618956601046353021989592591742320641287758643958518097449941404447696168491179816629429129771105998930717437864821069172069443993350771034571599696711991967256208924709477644996763434696889220399136009975669525716352049291399547346304876650638301401301618762213031777838267774121901738861940788081719129371439913104498129403320815411623744192827189151602680112510742587865501506308134080999842352934760391759277333729625584783607717610692317409767482322713453654931345215458341138477248249917257282357085856207131022595584665377353030892790299412394424181800230114513106055999290234221809887012605716481381181377152610833997359650142432360208923679629717,
   2)

/-- The packed word vector of `random.Random(42)` right after seeding. -/
def seededMt42 : ℕ :=
  82663673431515298878348125892076922365783069757798526784244050598313937512767946555105567842135433541961268832679564447481930064532585187162994848009574585122686978465536439186381119346285389971015664497868787229171546936942409743491868498635940684276698436506858484119070421511331132895304993849329208393304167080010636930173614624441936828135292295563718855043520888652492240787378188287948756429859678131320313149722218900291805028338565883078467138401494859521575283099145981678792121605979857514686793130943330313770376111649808959951136893973580829458877602381614555916176041877040780308989402930592924948451008392659903891078302468096510073054561268220357432569293521497131830922044988516040316696461890252658891937812137077698326841028526045017829237605777094083838852105281119467999132979162337968258864765593801439178690440189871328494739303638814863268844841313736550299766837110548953858269079978575300077403214500257399917385654509269855280076866593554001298152333401922224966669026142300705073497006787091546588638315672230373963619276949115860857537915195517971528759783091402967302621538207894751586345254545658890812158326957740026680361046254661091788809833141626179961244339817613410573958847339378373187693619441538637775379117387231005821087272257887575588666415472628576633153140593663370835676581874735924421676041910321962267240021638441198216858885623188152818149414018042869563767627928969512731857081428011617730744208084126530327493218283188330237634627043385971325726381941006315313020942714598258310683987876910665727287731188639790124681293867861646234928635170596055347748876320543460563710598217691119774835137262721653203268760315335132369835811988465882558753871413950567187950888491278778708993179769359589212223140338911648929104812059421030013898069576284523018150963896668952801120411674791778429096110671166995381822858827748143835556358862070943257843870596573540637319545893499686427023193503527501212077208886574386377910506614773834017585095571295086219028523946090089278153258661151101652418776500307460700083973906927280045011707987505449833896480127873306359431148607415078923831461270087142319684009331203361762220712446499023695587145239836507803911814882161915063108199421454462180373951176940080591277458243306990424535174590565608117888570339351020282643416147931579001026071809341119535798341882348591866021341816283858477697743453078021468501089065876249217344973525146889733762953917240334288868075485850723093607653871568457710689630971657574294402882195859207485343534840350175651994341004124212724981721578117943060373849165947808571471891508735080997298866016147935597339741326699207245466538208100666522864891933314470052847443745362970439547486838679354253152706760662870260695765537519959477479236623427719242905028476959368576490782805659127625261440007910351269462263618011075338316276799690902972302414342081963789515076393143995054867467145996471721122262153391442956285601802605476397557566559450267605107458855443216396947043236466552312718601892346433056767222165007631025666329375837184765840658676984284898489439007535391352662806494262031897013250263783539285102395455285405586348388035372015632823519802485179765492948982546612526153800948715917650443950850763563724409276334725236486125780651617723156297129367448296429400501658864742787022386577801752109777995373643436257912637333933711048378945228596862424214289259619104637366641443538704731253676073244211636412676550633624664133121478778776111533665195661274450601309176889593940105997537866071103429448805421406604198813742993998233955753216345778991410288420119110747377910893206478621845275458581206595814392549010399578388394455596558399177559012440595257880737519332053733088704345198907442504378387452888582487598736159677336669375019252418034169126276810242464452009879946391356983340052344519479660054088553061453767842109352665840972474712870381811517528648921344229102378851273254037244071546208559258016189186158802618570846122407575805735030986258251196917519792348510966228747838123198341870470991715526936441643149113847485699378420789111139857383241164952960343291754521639145070355966654445817548644348650273031627831871495744424251118353351051222881461179282505742625883322828268681808442704003090495155928716789727084061892349514338658395371297819336306263603709114744903843904591124462052342531061608033894644700791602929417769154835809424656043301921926405984733455919977169569562649687764138614136181729139101193691064746253805507687858731219097977446277929944857559114214479159089992700650344331766417996128520977707702114605234270300941059024559973626552283595879490977810574097596817932342925187862210088032263679453624373251399815432164509970923732755899633213695217078969529292889501568936211411421832673008676464711723258486764387687868195022143610469168114413816692593499503362135502793949170225772523155861923786490569333307891612009190037098908912854496416224567772506087995574471691774742094533496432215025256857202341100016144546835039088618003145675471911061031651823919108846562898430344438333412649773016774319745863312578255622591730450250454049581974952521575677756510885726227820993325710142791982262002791705187233974393058765755898055574917073353369401448705875691147668673637031620118190837133060462247401748650653817816500141693022196589991967774605824182010372414700031888464714730496618956601046353021989592591742320641287758643958518097449941404447696168491179816629429129771105998930717437864821069172069443993350771034571599696711991967256208924709477644996763434696889220399136009975669525716352049291399547346304876650638301401301618762213031777838267774121901738861940788081719129371439913104498129403320815411623744192827189151602680112510742587865501506308134080999842352934760391759277333729625584783607717610692317409767482322713453654931345215458341138477248249917257282357085856207131022595584665377353030892790299412394424181800230114513106055999290234221809887012605716481381181377152610833997359650142432360208921996034048

/-- The first twist of the seeded vector, after 150 positions. -/
def twChk1 : ℕ × ℕ :=
  (82663673431515298878348125892076922365783069757798526784244050598313937512767946555105567842135433541961268832679564447481930064532585187162994848009574585122686978465536439186381119346285389971015664497868787229171546936942409743491868498635940684276698436506858484119070421511331132895304993849329208393304167080010636930173614624441936828135292295563718855043520888652492240787378188287948756429859678131320313149722218900291805028338565883078467138401494859521575283099145981678792121605979857514686793130943330313770376111649808959951136893973580829458877602381614555916176041877040780308989402930592924948451008392659903891078302468096510073054561268220357432569293521497131830922044988516040316696461890252658891937812137077698326841028526045017829237605777094083838852105281119467999132979162337968258864765593801439178690440189871328494739303638814863268844841313736550299766837110548953858269079978575300077403214500257399917385654509269855280076866593554001298152333401922224966669026142300705073497006787091546588638315672230373963619276949115860857537915195517971528759783091402967302621538207894751586345254545658890812158326957740026680361046254661091788809833141626179961244339817613410573958847339378373187693619441538637775379117387231005821087272257887575588666415472628576633153140593663370835676581874735924421676041910321962267240021638441198216858885623188152818149414018042869563767627928969512731857081428011617730744208084126530327493218283188330237634627043385971325726381941006315313020942714598258310683987876910665727287731188639790124681293867861646234928635170596055347748876320543460563710598217691119774835137262721653203268760315335132369835811988465882558753871413950567187950888491278778708993179769359589212223140338911648929104812059421030013898069576284523018150963896668952801120411674791778429096110671166995381822858827748143835556358862070943257843870596573540637319545893499686427023193503527501212077208886574386377910506614773834017585095571295086219028523946090089278153258661151101652418776500307460700083973906927280045011707987505449833896480127873306359431148607415078923831461270087142319684009331203361762220712446499023695587145239836507803911814882161915063108199421454462180373951176940080591277458243306990424535174590565608117888570339351020282643416147931579001026071809341119535798341882348591866021341816283858477697743453078021468501089065876249217344973525146889733762953917240334288868075485850723093607653871568457710689630971657574294402882195859207485343534840350175651994341004124212724981721578117943060373849165947808571471891508735080997298866016147935597339741326699207245466538208100666522864891933314470052847443745362970439547486838679354253152706760662870260695765537519959477479236623427719242905028476959368576490782805659127625261440007910351269462263618011075338316276799690902972302414342081963789515076393143995054867467145996471721122262153391442956285601802605476397557566559450267605107458855443216396947043236466552312718601892346433056767222165007631025666329375837184765840658676984284898489439007535391352662806494262031897013250263783539285102395455285405586348388035372015632823519802485179765492948982546612526153800948715917650443950850763563724409276334725236486125780651617723156297129367448296429400501658864742787022386577801752109777995373643436257912637333933711048378945228596862424214289259619104637366641443538704731253676073244211636412676550633624664133121478778776111533665195661274450601309176889593940105997537866071103429448805421406604198813742993998233955753216345778991410288420119110747377910893206478621845275458581206595814392549010399578388394455596558399177559012440595257880737519332053733088704345198907442504378387452888582487598736159677336669375019252418034169126276810242464452009879946391356983340052344519479660054088553061453767842109352665840972474712870381811517528648921344229102378851273254037244071546208559258016189186158802618570846122407575805735030986258251196917519792348510966228747838123198341870470991715526936441643149113847485699378420789111139857383241164952960343291754521639145070355966654445817548644348650273031627831871495744424251118353351051222881461179282505742625883322828268681808442704003090495155928716789727084061892349514338658395371297819336306263603709114744903843904591124462052342531061608033894644700791602929417769154835809424656043301921926405984733455919977169569562649687764138614136181729139101193691064746253805507687858731219097977446277929944857559114214479159089992700650344331766417996128520977671530258934009833856789045440298809263861097717513653211998815656717297528115809416673218984463423296946296272771442086146848268471593208000223816595604502438190500399543471565173298048173013473938458632557521733685092024836322337178090991179672281523374390828663864114662271221178646231793043185058148011680485415424844244912789533847087132112390777604462038538072472781480905343712117734819334126137009991102001617151095508510241233532857942953589032679450317939850600230986119009927589026188376072714579199329224982461056596189966731768926471656564142786530364365323361817037723181182448717035781170866409184167669069187664348719301325195498220702604730076776863598024672181317192192070501654276938960670777782906030453734477150165660073227869707183910892186657386803260530012356037128958525003654604885820996700313649825402196061847370476466672662298078302428836672384529456539300137489508794278221856314288609071736789782086669618310761758971007832392096528620752888357944758372493241410575656383787723329570979354939684162465636131210799594823493827334871013212421520886205913725510471200133713117313220546990786820227861347580643361002672718733859428499555459572321313235189027799682489569445267293077156973429135660153188424207092839483341209926331545348224561280930612972266941364807974168524021386647394252645120719078351591493574509651497098148816969923747741333795655348414192693332595891741203276889457323258145859249265035165525405,
   150)

/-- The first twist of the seeded vector, after 300 positions. -/
def twChk2 : ℕ × ℕ :=
  (82663673431515298878348125892076922365783069757798526784244050598313937512767946555105567842135433541961268832679564447481930064532585187162994848009574585122686978465536439186381119346285389971015664497868787229171546936942409743491868498635940684276698436506858484119070421511331132895304993849329208393304167080010636930173614624441936828135292295563718855043520888652492240787378188287948756429859678131320313149722218900291805028338565883078467138401494859521575283099145981678792121605979857514686793130943330313770376111649808959951136893973580829458877602381614555916176041877040780308989402930592924948451008392659903891078302468096510073054561268220357432569293521497131830922044988516040316696461890252658891937812137077698326841028526045017829237605777094083838852105281119467999132979162337968258864765593801439178690440189871328494739303638814863268844841313736550299766837110548953858269079978575300077403214500257399917385654509269855280076866593554001298152333401922224966669026142300705073497006787091546588638315672230373963619276949115860857537915195517971528759783091402967302621538207894751586345254545658890812158326957740026680361046254661091788809833141626179961244339817613410573958847339378373187693619441538637775379117387231005821087272257887575588666415472628576633153140593663370835676581874735924421676041910321962267240021638441198216858885623188152818149414018042869563767627928969512731857081428011617730744208084126530327493218283188330237634627043385971325726381941006315313020942714598258310683987876910665727287731188639790124681293867861646234928635170596055347748876320543460563710598217691119774835137262721653203268760315335132369835811988465882558753871413950567187950888491278778708993179769359589212223140338911648929104812059421030013898069576284523018150963896668952801120411674791778429096110671166995381822858827748143835556358862070943257843870596573540637319545893499686427023193503527501212077208886574386377910506614773834017585095571295086219028523946090089278153258661151101652418776500307460700083973906927280045011707987505449833896480127873306359431148607415078923831461270087142319684009331203361762220712446499023695587145239836507803911814882161915063108199421454462180373951176940080591277458243306990424535174590565608117888570339351020282643416147931579001026071809341119535798341882348591866021341816283858477697743453078021468501089065876249217344973525146889733762953917240334288868075485850723093607653871568457710689630971657574294402882195859207485343534840350175651994341004124212724981721578117943060373849165947808571471891508735080997298866016147935597339741326699207245466538208100666522864891933314470052847443745362970439547486838679354253152706760662870260695765537519959477479236623427719242905028476959368576490782805659127625261440007910351269462263618011075338316276799690902972302414342081963789515076393143995054867467145996471721122262153391442956285601802605476397557566559450267605107458855443216396947043236466552312718601892346433056767222165007631025666329375837184765840658676984284898489439007535391352662806494262031897013250265262940775229694786999191670591392515449881526864973542736287016844935584730105202977055618613390851663692875049281937111357680489368227068096646639762668047906587786253219789730729793329366679782183824358705059126644259097508583878796349189064342120179884480753068933076725778159466323756332185137614508515338168839381150629971678156674360499263470497144396693789580688084152360226079581786029117448915897077996605756593930803915116799610305328047539402524670536095974521463577547437904757466664510394636892217979607155625765070111110315008993092901077385197257727086147100808567894439566901404930022769982790533137764056897079624998501482478795510765892080921008164939441915760059471233540995893065720002348568702913003791836806389608015827733250245828401596009770353532753563137710184031764373701125826555777141088307288792932390154514311578200051648559309422296095866366639830188585829966346937788610245404426555235829999113507377212048392024765378251732746335324377483199573984105403626393329560518253556293395515971670049594686440526955057362417059347745261840729838776058754386884802473086177893076444797992457824161580242139216497563343266927815841365606871770888201198210258913456058021308417820949854445081601866504227109065665562258437624612551429060988664381159700430760096257793841808195167906292021894162741467105954006945902270731362258545097270903287336646498519074528614057971483448334053784821122892608896290206218387352281148159097126033891832804471749081077294817061484706134940952385131489308684197788120034939401858687089411219366439801086750595364394452672288709060792526247917108565019393090712059154914648907595165314929879136069711807420262659372435836263274575206431184340938731554249332841498352785754162045423329209355819274618612039523751340459904382384728233408877989919325862300954562361296678768503582029398232789709478581283395698653432037876738297802470913649743744265192263596341198946769703787073201521538783660159524143540799595479152067487268711102701887385317972234891986009340369295599950755460585995018770894700601695287485958187638581314189802726086177864601604374187471189173215814355292340752207819811539567751819618514851006897684141612119762114264329389743924512419966094220548483848849807543720248912112144287330438300538596812630279233059962454967142099640473803582768444631591636119652454757906574736684054822434030265433417403758155069364283191856442235806641903929593193993386750828909774488829550980775257317528517936220712441347765239649275101276313033040473561147335253748588066495818290879882804410225111534991054975158067226205047965325612440979993989444069723149902367065135981215247292419861317089657468577028942814778687462124390162731355237312025025943885753876607883108577701853535067861902839758997275469336065911683453209970131864832174563967240279581179887852581058556936797723756017020798962703713694171545167684225449813405,
   300)

/-- The first twist of the seeded vector, after 450 positions. -/
def twChk3 : ℕ × ℕ :=
  (82663673431515298878348125892076922365783069757798526784244050598313937512767946555105567842135433541961268832679564447481930064532585187162994848009574585122686978465536439186381119346285389971015664497868787229171546936942409743491868498635940684276698436506858484119070421511331132895304993849329208393304167080010636930173614624441936828135292295563718855043520888652492240787378188287948756429859678131320313149722218900291805028338565883078467138401494859521575283099145981678792121605979857514686793130943330313770376111649808959951136893973580829458877602381614555916176041877040780308989402930592924948451008392659903891078302468096510073054561268220357432569293521497131830922044988516040316696461890252658891937812137077698326841028526045017829237605777094083838852105281119467999132979162337968258864765593801439178690440189871328494739303638814863268844841313736550299766837110548953858269079978575300077403214500257399917385654509269855280076866593554001298152333401922224966669026142300705073497006787091546588638315672230373963619276949115860857537915195517971528759783091402967302621538207894751586345254545658890812158326957740026680361046254661091788809833141626179961244339817613410573958847339378373187693619441538637775379117387231005821087272257887575588666415472628576633153140593663370835676581874735924421676041910321962267240021638441198216858885623188152818149414018042869563767627928969512731857081428011617730744208084126530327493218283188330237634627043385971325726381941006315313020942714598258310683987876910665727287731188639790124681293867861646234928635170596055347748876320543460563710598217691119774835137262721653203268760315335132369835564022798032418103566822952991727202124845044955616669105980086813217656815710563701404509413997097440131919095431656799605657068838082977112972465365832392745367286774870447918248631110823976947083618589446965101442688774227000778671442875398624421849688225739961560477285149793425428245766761352850795722388400742040584111488254863680816981424197978438012186204918683580422896241139741586836499275835363828415390272379825785211401088749614695380797741711364479832772609226207073317812489448964342396169065078483397646482765146959871599333201206546274663812982141112394330864874895592048685998472253745884093393942403001952644802853995167107911836670697124625465674981683965858039357913256668844051645615644589706581888869765215137856853765078100694411893663536455617486182398662389617679241780706279535868175606443861432481267974189194413323204062325189396270322684066850142544315320450153609970162726368241644586493545935800910596584905477984084098667484662338141469964402644008699238272456318881706763854803274123462183717138116604938144864815898429011858504780518229855675435299777056678706814218894633586341957606144061193240034927603066151102615208114826494883882150473832182033369939306145080255928639730235879303128045311911563881479840018900019753705549687245334441360735357287769604140333254974561149255475113952078661935969684929264446670404687765377378502399484088459825768410633112344408199906386600199617462548742595670744053329713992974658059688096558021624954616911644542745047373651625170886020803935075328978562044478390704324910425277402701467790608077976288450712215572284899932195169314620609138248769704383402889781736636272380293557612974851706046687223971916652597636783768387410978573334835754097449030606002592757366661502064176145039405204024558796702482822086217692726236268715513396133826875003972538445104070699122597369948252025315697506549244088025255768632030374497921273280726914066040203758379146192274896891113252813109928782028404060937681950754945236010583721355607823334357774477894780457312081911896137438431936599246619580867657638771031436583512183754180234599803946043523865563239371215300325535606294465432139425011402871981463365685215623256881445743596396538942709226993280479999702809876925890461442343234418807706331217564738519598739452610740168220899300613729562226594004012852026766656836658836465891676912943443398830534108214623246323312455258175619989244837212872601142557434426868248791625826503881215230172669322599437305785744706811692678743703108186513364525486025474462928545068733227201730323763226732564106239165372975301377825618562023177003812067143753774191160785277201767753886241358049182026821574229926233361033313507646881204732158295047166754866566035540169990895157447703603929117768102217345633646452535806178861488259973609607058091971062302765865736208597747294090269990458137398863417487807756176671995538852106281630873951440400475600856317179862370634228902347937800054925949532103270193604834015333795600956225587019728070006940123510989568550671138245760555462664999133148574725442834575559436668764398417191656961386975082522257533549588494987066054056584104808939485880138699676519377245144214155159229728980641423065697614979855758942909677245237533742327710596071214720930569267674290844756162079473734141804193515822089983944205009562516344447803393497082986630821270072478278600419371317708773681974293501890786712666669976685808903100851190024913907443953515224946497523312479641159867796053430230306773157636069385471518401445893768133624571526415653493982277030138087621132530767731493187111348172054471992893490897809585848190091062594500184728236293224403894401539237576348449507705447873207508758371274376483871525700895367647806722780334644266272514330455536146359325122879168289332573541360803233993004947467482548839854123281678967690506386509826525865127452811479919322574405235440190751193382894680267691723186580310168410276443187197363107239175115370229769897084679215221085839705660048263791618662804706886699199195522606234210993531887930432238846079896460153198241073054738456616752013291520296632135790838484830784324648166875423814282109015477528568321314341143713127710658400375304731668846675379354076832346474761206932283280615651851425464691104114668216787628418492216403199177915196608980733877625667005198205479919128032798109,
   450)

/-- The first twist of the seeded vector, after 600 positions. -/
def twChk4 : ℕ × ℕ :=
  (82663673431515298878348125892076922365783069757798526784244050598313937512767946555105567842135433541961268832679564447481930064532585187162994848009574585122686978465536439186381119346285389971015664497868787229171546936942409743470799342116172253429930305117388519798400335217861901461927716160675746682650784870919983621349352898649900001198634660437867554968645657681779444603966115912388963709631851448058977644547509683686597650822282698588931812687639040340535008948111829089411201021812643906177292868003881077403730160352889871991963022493548525891237913479378925321226046962197682268118056023795681351148781527405910166618844426336508211840309948510494360767212181349524664660714437116000198881467056805112762176058254547370572126482265467565143299781363445009833596994097787871266715144655469821762957197846804571953024588108738228346153879770103604766111648424565703839689950060723542331774543611181057115386420500632666253918956179168461121510663796561213327997105625966915270155337488995645494943152089693529050207357888625944991585675129667194959219570273209456986306491229038016832675460024356724139968905770115182748248782843585670708571607529429012773652685915390119914781947709571856408024542593963730692642515946084984016300535633659658701658781829916264141878573547620094540506411762204305101780162500253563388403346600579061488827566036432412088131946626871379851776975150312713302056277754079518636391427081670413643960277948187627178219447330766257333894499844772280643038953784239772311495857254296475432652504689419957661363494673659985929175962832382568110061355750216349818609861629562719657260439104054542027127007546805299817685867558505496850790703400437610204340990281748100103431989759113016246416774748701997762192262930128872643323628514590580854143942678579064093882835976008864130575151723105368051077760607156447255283000193012897775459693447324197219083959306741440256780868776028708138133490143929671960222150282783479531824422913515410843857524735882459454342104363849840366736005331289658952765489461812668767458542086126280954062032683350649498211448455217984518387659549758771339732541809889308281323763082259131268418435903655617681120221659212125553619489575485859429227813791268739523663130013113243364117835221619540536077388282178739536392629330280733733452538852785190984602119401019076903743288376974119737057851329401951201045493652068809191225039694071044015308680628716729336807836365581245702039480749007912498513708862612859631025441010938141882990214389142051234645859758767650402964063699310200339543463248366440612265723219748976974267874767938788438364522996637619847132352091780520873761765743382444727812403883290394854430715236515430083578669003417475594668371983921769108610128890270009443476956440145959261565297313240639530122700190551371991056597811916672877904769501438094928202492861978911351303203149255467574436748821654662300225393025613527614630020564193013946189743190286060817177305823634643381588943823197641057749546516673172050842781585323210944905097719090803896324270993285922960816636553898118102517219418797606780437423805034226779384056701443769885389330628532341954713156778604772344211172260161452010431551441599662436343131661583092473254071753534133045212338008625840046415096576287465165243686575657155989201271681440832511350520892744325350705628750169423568923739398525615662961348380180570981249055711499044219559610918709243403167382542725774610673607786540596989643988818956089466430731434610567163125483558703967743799127200617330566799065363869376190782350571206621975548143320577427968179431838712017713905888638215148187785663811088271278287356575748778070267287345052358789866568773685066246254565601132657795157090179139405840754590219605797082630409209062063799471800101713210346248167513733063684240034923829294883695657555086675354104890595066415745676239826798798270858358845695480622844771219213953890778352484913545394517966534751209175551183702224355802333695013809572470188750426123708582419856474943153943458421792408516336874103026611955476097791233587315401793903583001962174980613842960648502360359713324719014712021844291147552190912506003859446485613299005760406474072746658813649123869956527661845194352188191742919517272593381979436306298068917416494288554855542152995596498151817540527233707856511408074254858965615861181394765669229587633564012756131551874469184706013399020304792080147629299068720236710135180135898778497769932138982685470044156377572927749146976046429620818325846509859401412648454918007135821150995158393628966696563817967877354026005853074377885326859787708346199721653459878563603167320770775130562625210064936660449174271869508926620904965885111839413201563865110791184919305965114653099243949173578004649266772064800548134771903283715389985491076299431517351367426456880800680000604554724073591803446131397679936804988384199725356562413012844864589525668351099803838631978880980834948912863072212571728635366035479131999361844196324330766126802845401316327742715231288091854875180994648537679230759946013922939767620665541779760646820700727617803710282614891269639715244656295158016210780191364372058850098718189733438508680042852613948402931244813716585885249568268636810462367924750573577068673303615951904649567831043283148313101334437291232408362819725408117885159289339408502611743171766435220669737736080016111929972619302392776723722084615337191621054357968551594287690234891167081723626217190126440551564440133159499436370682833615573282998152524954035203389103165164597461254684489114106944261774041421595155399931770519504705628280525518966600141569496170561088688549219856537375858727347811739187752240909671497360723954955516520325230961090856578158073026010246759505676892358849911289756804972475900932734447935167910062477835029058765015723888578712217610948176219157899151299504936839450137673326857159745424958590488568890583318965362421567783973376681494453073440150817216243216962665523380068856326280476107126239924493875021581749687989199382109185437,
   600)

/-- The first twist of the seeded vector, after 624 positions. -/
def twChk5 : ℕ × ℕ :=
  (23286412696272796128385897882899802046735748944147304095586925937806345412490055899989764787484019671778376362860042742494792413992016635194480038477926904958899144614039557626716988148046858795729988411355407357548889190298165282191259573451220739704130358456492366200248883967389173812742747365951504723827523001491684280272471146320539623073306718256054486728666524616861157674570314020673215994879601644468493397565948697625971234773093914841101193534975382259956342285658764551397402609057923396101053639833475318217931762856992618905368851508431145636474930815718376354884170331578353645378352602708588674621094947420057719398999411780746413367716750015272006187870701685896805295225270884333726677135807614285840605691082136490217584185163901883278716870542932408492276006934865950227228102565619591461173805522792331549657987608467832953423202739185593471886873026513156423612104712278866544088995443062358275943090013331027296613716195131399476645881603863139798632036678923865823483738444232435763768448564749145225791584554176552634074674452371087255094700183545843401961001081364543762853499747092448068502508107593222630087591092190301278596492271084561527815914631099970271527741341154498636817887954386114857723617590227434680446936190223263833291945243787167247149965989045571619886692880836576710444656652995794686726592702042909876779011822418497887649544399191573617662283988123334351033491691796060980506833548165946249816500531072975720101201148937385795784874674629915552672362617383321719837739429255985286112730811702868712409941153617174075894697487470068453019650904234526005029575161998672416784142896346487246864102740666523927113249728893342584950081500666413223075139020834369395133027522567192339447474603437176136121429942424113503165651764463838168080640665909102853392454355233594720929998804403108112539299819964006223882881356867663239923365640981086766641761515297600657027403195393633240963358398367554981774333956721216433851233514169545306034533986830036116585909294995659056896975306339311913500665920155125378855507762655484458244595756571073270346554631189797527287186906544490192119811857340633612822753313718241274967409117961253011924109326791253319825904752833477351536518342894139189453000956528443747216037073273671221727149026146344923908052024457850500041663850036624099467140232474787791721045655918272563736783264349783782731035180013699315093809364598771418606152417216097180548070943269883902267891435223805520989936607956077030220406868186637122337732751075798983567883250427889753615936024670428353008364175599230073860307230172879655230697897043531116402063962476243553472520178188319041538472605912360815622740862670090705068958399109665958228000669173533293354031463386330625667331834652998204824593734638096670793318709992279933082510076752228441866820292945328046102660857229395046334118857136097623449515342034623405425867640111085158005212708735355617504106639713612663723609468506576502149805431988349667888873766989901288124552226611709923696250483328623879467458940304767010528851526461680464236857867452516372589555536686351943179251598160839013012754338815351828372760694583523004453931120329908535994740543763938877977565925800314656356696314860778451301506104495553626674880902354234676963699516108316781033383469889699857398909924439587768695698940339121265261182049269862323764164620756114931585764507820465988192520691623426751401040549597714182200371618208025688973739685384513159399246575377965130891355864446900081101970162893944424756304632423169527481380468427896112720572741216587451395016309850851716420910424598867183019891667575692338585798842294879764817624284278219752523075007123801771903544143700812217310189752937873050113077832258306963562783905735500410546365130101854524919763983206841661367311933478527235156747173998039831748914357363958110023707346171262306842031879110841956153517301114814498515955290074819480993346943212015103100760064168814481550228857878687402486979821435808498704365332158722439149640862842872882305330515624683825889267770073780313093413628761960362785040821728222505917783150425670125466259757911832197125032317718132586927606140166614064453023155532373325035480075314560955164947539185016274212676845349939602719662779258735428274936191714345440299139674205179154738197015510172791710203374566887642266846822627516487759168535594197497712130627077690751420191390629676160138980402797289454242465323821263625442908510948053173773364784462190015868242922154187553627666329911751351367348284498478120355294318548190303313515398623542186825776853395891044485977185103856118630981012292810712210549436275409396561870155846749587968794410401406019592329092419797227756782883858425304340820553674101561825316271266907187479993228490833649511261948282000516355287224823701849161267658147453894622022555465564762662747236105306321164736124720441242391728630986300587810210103304386380987562148870746821955948349781742619760301217033615854063564504285773784578046390044993424643195844511653552226479317239373745300979133210860741015056170308196753896425575987365318209291810315853192469645196632559351154607507854083767429091321860317918982658720636329449846124447523343709157747028570593657907691799462999122224604858032462813412226252078689141167619669763888992450090791106235260761711380574332201438891412838064418792597077561185245612725179349795162598851806363347610022835261658434149733138082336066926500349361306074639508348727036183048346134974496623934852669861527034319363078321856867189640763771583180654524431393492146361864683494027463236383483141406826227013984680097735659500624881852509349301241846631761364507936910779621552262902646323469016683886689777023536772873711539455067644624234633639728370672550427760649707901418501965312729024468387284203044930930023127659691566401597503825305682639201612517425907130819996089253534756782958389002918536303215296996060899872406077485717625280433555794517966049296080338486659354725358640798081366344678683170445274787496285617840986482077,
   624)


/-- Splitting an iteration count (used to keep each kernel reduction below
the checkpoint size). -/
theorem iterN_add {σ : Type} (f : σ → σ) (m k : ℕ) (s : σ) :
    iterN f (m + k) s = iterN f k (iterN f m s) := by
  induction k with
  | zero => rfl
  | succ k ihk =>
    show f (iterN f (m + k) s) = f (iterN f k (iterN f m s))
    rw [ihk]

/-- Chunked evaluation of `init_genrand 19650218`, stage 1. -/
theorem igChk1_eq :
    iterN initGenrandStep 150 (19650218 % 2 ^ 32, 19650218 % 2 ^ 32, 1) = igChk1 := by
  decide

/-- Chunked evaluation of `init_genrand 19650218`, stage 2. -/
theorem igChk2_eq : iterN initGenrandStep 150 igChk1 = igChk2 := by decide

/-- Chunked evaluation of `init_genrand 19650218`, stage 3. -/
theorem igChk3_eq : iterN initGenrandStep 150 igChk2 = igChk3 := by decide

/-- Chunked evaluation of `init_genrand 19650218`, stage 4. -/
theorem igChk4_eq : iterN initGenrandStep 150 igChk3 = igChk4 := by decide

/-- Chunked evaluation of `init_genrand 19650218`, stage 5. -/
theorem igChk5_eq : iterN initGenrandStep 23 igChk4 = igChk5 := by decide

/-- The `init_genrand(19650218)` vector all MT19937 seeding starts from. -/
theorem init_genrand_19650218 : init_genrand 19650218 = igChk5.1 := by
  show (iterN initGenrandStep 623 (19650218 % 2 ^ 32, 19650218 % 2 ^ 32, 1)).1
      = igChk5.1
  rw [show (623 : ℕ) = 150 + 150 + 150 + 150 + 23 from rfl, iterN_add, iterN_add,
    iterN_add, iterN_add, igChk1_eq, igChk2_eq, igChk3_eq, igChk4_eq, igChk5_eq]

/-- Chunked evaluation of the key-mixing pass for seed 42, stage 1. -/
theorem ibaChk1_eq : iterN (ibaStep1 [42]) 150 (igChk5.1, 1, 0) = ibaChk1 := by
  decide

/-- Chunked evaluation of the key-mixing pass for seed 42, stage 2. -/
theorem ibaChk2_eq : iterN (ibaStep1 [42]) 150 ibaChk1 = ibaChk2 := by decide

/-- Chunked evaluation of the key-mixing pass for seed 42, stage 3. -/
theorem ibaChk3_eq : iterN (ibaStep1 [42]) 150 ibaChk2 = ibaChk3 := by decide

/-- Chunked evaluation of the key-mixing pass for seed 42, stage 4. -/
theorem ibaChk4_eq : iterN (ibaStep1 [42]) 150 ibaChk3 = ibaChk4 := by decide

/-- Chunked evaluation of the key-mixing pass for seed 42, stage 5. -/
theorem ibaChk5_eq : iterN (ibaStep1 [42]) 24 ibaChk4 = ibaChk5 := by decide

/-- The key-mixing pass of `init_by_array [42]`. -/
theorem ibaPass1_42 : ibaPass1 [42] = ibaChk5 := by
  show iterN (ibaStep1 [42]) (max 624 ([42] : List ℕ).length)
      (init_genrand 19650218, 1, 0) = ibaChk5
  have hmax : max 624 ([42] : List ℕ).length = 150 + 150 + 150 + 150 + 24 := by
    decide
  rw [init_genrand_19650218, hmax, iterN_add, iterN_add, iterN_add, iterN_add,
    ibaChk1_eq, ibaChk2_eq, ibaChk3_eq, ibaChk4_eq, ibaChk5_eq]

/-- Chunked evaluation of the decorrelating pass for seed 42, stage 1. -/
theorem iba2Chk1_eq : iterN ibaStep2 150 (ibaChk5.1, ibaChk5.2.1) = iba2Chk1 := by
  decide

/-- Chunked evaluation of the decorrelating pass for seed 42, stage 2. -/
theorem iba2Chk2_eq : iterN ibaStep2 150 iba2Chk1 = iba2Chk2 := by decide

/-- Chunked evaluation of the decorrelating pass for seed 42, stage 3. -/
theorem iba2Chk3_eq : iterN ibaStep2 150 iba2Chk2 = iba2Chk3 := by decide

/-- Chunked evaluation of the decorrelating pass for seed 42, stage 4. -/
theorem iba2Chk4_eq : iterN ibaStep2 150 iba2Chk3 = iba2Chk4 := by decide

/-- Chunked evaluation of the decorrelating pass for seed 42, stage 5. -/
theorem iba2Chk5_eq : iterN ibaStep2 23 iba2Chk4 = iba2Chk5 := by decide

/-- The decorrelating pass of `init_by_array [42]`. -/
theorem ibaPass2_42 : ibaPass2 [42] = iba2Chk5 := by
  show iterN ibaStep2 623 ((ibaPass1 [42]).1, (ibaPass1 [42]).2.1) = iba2Chk5
  rw [ibaPass1_42, show (623 : ℕ) = 150 + 150 + 150 + 150 + 23 from rfl,
    iterN_add, iterN_add, iterN_add, iterN_add, iba2Chk1_eq, iba2Chk2_eq,
    iba2Chk3_eq, iba2Chk4_eq, iba2Chk5_eq]

/-- `init_by_array [42]` evaluated. -/
theorem init_by_array_42 : init_by_array [42] = seededMt42 := by
  show wSet (ibaPass2 [42]).1 0 (2 ^ 31) = seededMt42
  rw [ibaPass2_42]
  decide

/-- `random.Random(42)`'s state right after seeding. -/
theorem pyRandomInit_42 : pyRandomInit 42 = ⟨seededMt42, 624⟩ := by
  have hkey : seedKey 42 = [42] := by decide
  show MTState.mk (init_by_array (seedKey 42)) 624 = MTState.mk seededMt42 624
  rw [hkey, init_by_array_42]

/-- Chunked evaluation of the first twist of the seeded vector, stage 1. -/
theorem twChk1_eq : iterN twistStep 150 (seededMt42, 0) = twChk1 := by decide

/-- Chunked evaluation of the first twist of the seeded vector, stage 2. -/
theorem twChk2_eq : iterN twistStep 150 twChk1 = twChk2 := by decide

/-- Chunked evaluation of the first twist of the seeded vector, stage 3. -/
theorem twChk3_eq : iterN twistStep 150 twChk2 = twChk3 := by decide

/-- Chunked evaluation of the first twist of the seeded vector, stage 4. -/
theorem twChk4_eq : iterN twistStep 150 twChk3 = twChk4 := by decide

/-- Chunked evaluation of the first twist of the seeded vector, stage 5. -/
theorem twChk5_eq : iterN twistStep 24 twChk4 = twChk5 := by decide

/-- The first twist of the seeded vector of `random.Random(42)`. -/
theorem twist_seededMt42 : twist seededMt42 = twChk5.1 := by
  show (iterN twistStep 624 (seededMt42, 0)).1 = twChk5.1
  rw [show (624 : ℕ) = 150 + 150 + 150 + 150 + 24 from rfl, iterN_add, iterN_add,
    iterN_add, iterN_add, twChk1_eq, twChk2_eq, twChk3_eq, twChk4_eq, twChk5_eq]

/-- Drawing from a state whose block is exhausted (index 624) is the same
as drawing from the twisted vector at index 0. -/
theorem genrand_uint32_exhausted (mt : ℕ) :
    genrand_uint32 ⟨mt, 624⟩ = genrand_uint32 ⟨twist mt, 0⟩ := by
  have h1 : (624 : ℕ) ≥ 624 := le_refl _
  have h2 : ¬((0 : ℕ) ≥ 624) := by omega
  simp [genrand_uint32, h1, h2]

/-- Exhausted-state draw, `getrandbits` level. -/
theorem getrandbits32_exhausted (k mt : ℕ) :
    getrandbits32 k ⟨mt, 624⟩ = getrandbits32 k ⟨twist mt, 0⟩ := by
  simp [getrandbits32, genrand_uint32_exhausted]

/-- Exhausted-state draw, `_randbelow`'s retry-loop level. -/
theorem randbelowLoop_exhausted (k n fuel mt : ℕ) :
    randbelowLoop k n (fuel + 1) ⟨mt, 624⟩ =
      randbelowLoop k n (fuel + 1) ⟨twist mt, 0⟩ := by
  simp only [randbelowLoop]
  rw [getrandbits32_exhausted]

/-- Exhausted-state draw, `_randbelow` level. -/
theorem randbelow_exhausted (n mt : ℕ) :
    randbelow n ⟨mt, 624⟩ = randbelow n ⟨twist mt, 0⟩ := by
  unfold randbelow
  rw [show (1000000 : ℕ) = 999999 + 1 from rfl]
  exact randbelowLoop_exhausted (pyBitLength n) n 999999 mt

/-- Exhausted-state draw, `randint` level. -/
theorem pyRandint_exhausted (a b mt : ℕ) :
    pyRandint a b ⟨mt, 624⟩ = pyRandint a b ⟨twist mt, 0⟩ := by
  unfold pyRandint
  rw [randbelow_exhausted]

/-- `get_attendees` on a pool of two or more from an exhausted generator
state equals the call from the twisted vector at index 0 (both make exactly
the same draws). -/
theorem get_attendees_exhausted (cn : String) (d loc : Option String)
    (x y : String) (rest : List String) (mt : ℕ) :
    get_attendees cn d loc (x :: y :: rest) ⟨mt, 624⟩ =
      get_attendees cn d loc (x :: y :: rest) ⟨twist mt, 0⟩ := by
  have h0 : (x :: y :: rest).length ≠ 0 := by simp
  have h1 : (x :: y :: rest).length ≠ 1 := by simp
  simp only [get_attendees, if_neg h0, if_neg h1]
  rw [pyRandint_exhausted]

/-! ## Helper lemmas -/

/-- `String.append` acts as list append on the character data. -/
theorem strData_append (s t : String) : (s ++ t).data = s.data ++ t.data := by
  cases s
  cases t
  rfl

/-- Two strings differ when their first characters differ; stated for a
string with a known literal prefix against `optimalMsg`. -/
theorem ne_optimal_of_head (c : Char) (pre x : String)
    (hc : pre.data.head? = some c) (hne : c ≠ '✨') : pre ++ x ≠ optimalMsg := by
  intro h
  have hd := congrArg String.data h
  rw [strData_append] at hd
  rcases hp : pre.data with _ | ⟨a, as⟩
  · rw [hp] at hc
    simp at hc
  · rw [hp] at hc hd
    have hhead : ((a :: as) ++ x.data).head? = optimalMsg.data.head? := by
      rw [hd]
    have ho : optimalMsg.data.head? = some '✨' := rfl
    rw [ho] at hhead
    simp at hhead hc
    exact hne (hc ▸ hhead)

/-- The high-wind advisory is never the fallback advisory. -/
theorem highWindMsg_ne_optimal (w : ℚ) : highWindMsg w ≠ optimalMsg :=
  ne_optimal_of_head '⚠' _ _ rfl (by decide)

/-- The moderate-wind advisory is never the fallback advisory. -/
theorem moderateWindMsg_ne_optimal (w : ℚ) : moderateWindMsg w ≠ optimalMsg :=
  ne_optimal_of_head '⚡' _ _ rfl (by decide)

/-- The heat advisory is never the fallback advisory. -/
theorem heatMsg_ne_optimal (t : ℚ) : heatMsg t ≠ optimalMsg :=
  ne_optimal_of_head '🔥' _ _ rfl (by decide)

/-- The cold advisory is never the fallback advisory. -/
theorem coldMsg_ne_optimal (t : ℚ) : coldMsg t ≠ optimalMsg :=
  ne_optimal_of_head '❄' _ _ rfl (by decide)

/-- The low-attendance advisory is never the fallback advisory. -/
theorem lowAttendanceMsg_ne_optimal (p t : ℕ) : lowAttendanceMsg p t ≠ optimalMsg :=
  ne_optimal_of_head '📊' _ _ rfl (by decide)

/-- The strong-attendance advisory is never the fallback advisory. -/
theorem strongAttendanceMsg_ne_optimal (p t : ℕ) :
    strongAttendanceMsg p t ≠ optimalMsg :=
  ne_optimal_of_head '✅' _ _ rfl (by decide)

/-- No advisory produced by the rule table is the fallback advisory. -/
theorem ruleAdjustments_ne_optimal (routine : WorkoutRoutine) (wf : WindForcast)
    (cs : Option ClassSession) :
    ∀ x ∈ ruleAdjustments routine wf cs, x ≠ optimalMsg := by
  intro x hx
  unfold ruleAdjustments at hx
  simp only [List.mem_append] at hx
  rcases hx with ((((hw | hr) | hc) | ht) | hi) | hs
  · split_ifs at hw
    · simp at hw
      subst hw
      exact highWindMsg_ne_optimal _
    · simp at hw
      subst hw
      exact moderateWindMsg_ne_optimal _
    · simp at hw
  · split_ifs at hr
    · simp at hr
      subst hr
      decide
    · simp at hr
  · split_ifs at hc
    · simp at hc
      subst hc
      decide
    · simp at hc
  · rcases htv : wf.temperature_celsius with _ | t
    · rw [htv] at ht
      simp at ht
    · rw [htv] at ht
      dsimp only at ht
      split_ifs at ht
      · simp at ht
        subst ht
        exact heatMsg_ne_optimal _
      · simp at ht
        subst ht
        exact coldMsg_ne_optimal _
      · simp at ht
  · split_ifs at hi
    · simp at hi
      subst hi
      decide
    · simp at hi
  · rcases hsv : cs with _ | s
    · rw [hsv] at hs
      simp at hs
    · rw [hsv] at hs
      dsimp only at hs
      split_ifs at hs
      · simp at hs
        subst hs
        exact lowAttendanceMsg_ne_optimal _ _
      · simp at hs
        subst hs
        exact strongAttendanceMsg_ne_optimal _ _

/-- The wind rule's `if/elif` equals the spec's two mutually-exclusive rules. -/
theorem windSegment_eq (w : ℚ) :
    (if 10 < w then [highWindMsg w] else if 5 < w then [moderateWindMsg w] else [])
      = (if 10 < w then [highWindMsg w] else [])
        ++ (if 5 < w ∧ w ≤ 10 then [moderateWindMsg w] else []) := by
  by_cases h10 : 10 < w
  · simp [h10, not_le.mpr h10]
  · by_cases h5 : 5 < w <;> simp [h10, h5, not_lt.mp h10]

/-- The temperature rule's `if/elif` equals the spec's two
mutually-exclusive rules. -/
theorem tempSegment_eq (topt : Option ℚ) :
    (match topt with
      | none => []
      | some t => if 30 ≤ t then [heatMsg t] else if t ≤ 5 then [coldMsg t] else [])
      = (match topt with
          | none => []
          | some t => if 30 ≤ t then [heatMsg t] else [])
        ++ (match topt with
            | none => []
            | some t => if t ≤ 5 then [coldMsg t] else []) := by
  rcases topt with _ | t
  · rfl
  · by_cases h30 : 30 ≤ t
    · have h5 : ¬t ≤ 5 := by linarith
      simp [h30, h5]
    · by_cases h5 : t ≤ 5 <;> simp [h30, h5]

/-! ## Claim theorems -/

/-- C1: for every environment reading, template, and optional session, the
advisory-rule evaluation of `_generate_adjustments` equals the fixed-priority
advisory rule table exactly as the spec words it — wind severity (high `>10` /
moderate `>5` exclusively), rain keyword, clear/sunny keyword (independent),
heat `≥30` / cold `≤5` (mutually exclusive, absent temperature fires neither),
High intensity, and (only when a session is present) exactly one of
low or strong attendance. -/
theorem C1_rule_table (routine : WorkoutRoutine) (wf : WindForcast)
    (cs : Option ClassSession) :
    ruleAdjustments routine wf cs = specAdvisoryTable routine wf cs := by
  unfold ruleAdjustments specAdvisoryTable containsCI
  rw [windSegment_eq, tempSegment_eq]
  simp only [List.append_assoc, Bool.or_eq_true]

/-- A sample forecast used by witnesses (the spec §8 end-to-end reading). -/
def sampleForecast : WindForcast :=
  { location := "X", wind_speed_mps := 3, wind_gust_mps := none,
    description := "Clear", temperature_celsius := some 20 }

/-- A sample routine used by witnesses (the spec §8 end-to-end template). -/
def sampleRoutine : WorkoutRoutine :=
  { day := "Monday", name := "Day1", exercises := ["Pushups", "Squats"],
    duration_minutes := 30, intensity := "Low" }

/-- C5: the recommended-adjustments list of every plan returned by
`generate_plan` is the `_generate_adjustments` output for the plan's own
routine/forecast/session, that list is never empty, and it equals the
single fallback "optimal conditions" advisory exactly when no rule of the
table fired. -/
theorem C5_fallback :
    (∀ (routine : WorkoutRoutine) (wf : WindForcast)
        (cs : Option ClassSession),
      generate_adjustments routine wf cs ≠ [] ∧
        (generate_adjustments routine wf cs = [optimalMsg]
          ↔ ruleAdjustments routine wf cs = [])) ∧
    (∀ (ε : Type) (weather : String → Except ε WindForcast)
        (routineFor : String → Option WorkoutRoutine)
        (rosterFor : String → Option ClassSession)
        (target_date : PlanDate) (location : String) (plan : WorkoutPlan),
      generate_plan weather routineFor rosterFor target_date location
          = Except.ok plan →
        plan.recommended_adjustments =
          generate_adjustments plan.routine plan.wind_forecast
            plan.class_session) := by
  constructor
  · intro routine wf cs
    unfold generate_adjustments
    by_cases h : ruleAdjustments routine wf cs = []
    · simp [h]
    · simp only [if_neg h]
      refine ⟨h, ?_, fun he => absurd he h⟩
      intro he
      have hm : optimalMsg ∈ ruleAdjustments routine wf cs := by
        rw [he]
        exact List.mem_singleton_self _
      exact absurd rfl (ruleAdjustments_ne_optimal routine wf cs _ hm)
  · intro ε weather routineFor rosterFor target_date location plan h
    simp only [generate_plan] at h
    split at h
    · exact absurd h (by simp)
    · split at h
      · exact absurd h (by simp)
      · injection h with h'
        subst h'
        rfl

/-- The plan that `generate_plan` produces on the §8 end-to-end inputs. -/
def samplePlan : WorkoutPlan :=
  { date := "2025-12-01", routine := sampleRoutine,
    wind_forecast := sampleForecast, class_session := none,
    recommended_adjustments :=
      generate_adjustments sampleRoutine sampleForecast none,
    plan_summary :=
      create_summary "Monday" sampleRoutine sampleForecast none
        (generate_adjustments sampleRoutine sampleForecast none) }

/-- C5 (witness): the plan-level clause applied to a concrete successful
generation. -/
theorem C5_fallback_witness :
    samplePlan.recommended_adjustments =
      generate_adjustments samplePlan.routine samplePlan.wind_forecast
        samplePlan.class_session :=
  C5_fallback.2 Unit (fun _ => Except.ok sampleForecast)
    (fun _ => some sampleRoutine) (fun _ => none)
    ⟨"Monday", "2025-12-01"⟩ "X" samplePlan rfl

/-- C2 (counterexample): with an empty template index and a weather gateway
that raises, `generate_plan` fails with the propagated weather error, not
with RoutineNotFound — the routine check happens only after the weather
call, so the failure outcome is not independent of the gateway's
behaviour. -/
theorem C2_counterexample :
    generate_plan (fun _ => (Except.error () : Except Unit WindForcast))
        (fun _ => none) (fun _ => none) ⟨"Monday", "2025-12-01"⟩ "Huntington Beach"
      = Except.error (PlanError.weatherFailure ()) ∧
    generate_plan (fun _ => (Except.error () : Except Unit WindForcast))
        (fun _ => none) (fun _ => none) ⟨"Monday", "2025-12-01"⟩ "Huntington Beach"
      ≠ Except.error (PlanError.routineNotFound "Monday") := by
  refine ⟨rfl, ?_⟩
  intro h
  rw [show generate_plan (fun _ => (Except.error () : Except Unit WindForcast))
      (fun _ => none) (fun _ => none) ⟨"Monday", "2025-12-01"⟩ "Huntington Beach"
      = Except.error (PlanError.weatherFailure ()) from rfl] at h
  simp at h

/-- C2 (amended): when the weather gateway call returns normally and no
template resolves for the weekday, `generate_plan` fails with
RoutineNotFound; when the weather gateway raises, that error propagates
instead (the gateway is consulted before the routine check). -/
theorem C2_amended {ε : Type} (weather : String → Except ε WindForcast)
    (routineFor : String → Option WorkoutRoutine)
    (rosterFor : String → Option ClassSession)
    (target_date : PlanDate) (location : String) :
    (∀ wf, weather (effectiveLocation (rosterFor target_date.dayName) location)
        = Except.ok wf →
      routineFor target_date.dayName = none →
      generate_plan weather routineFor rosterFor target_date location
        = Except.error (PlanError.routineNotFound target_date.dayName)) ∧
    (∀ e, weather (effectiveLocation (rosterFor target_date.dayName) location)
        = Except.error e →
      generate_plan weather routineFor rosterFor target_date location
        = Except.error (PlanError.weatherFailure e)) := by
  constructor
  · intro wf hok hnone
    simp only [generate_plan]
    rw [hok, hnone]
  · intro e herr
    simp only [generate_plan]
    rw [herr]

/-- C2 (witness): amended claim instantiated — empty index, gateway that
returns a reading. -/
theorem C2_amended_witness :
    generate_plan (fun _ => (Except.ok sampleForecast : Except Unit WindForcast))
        (fun _ => none) (fun _ => none) ⟨"Monday", "2025-12-01"⟩ "Huntington Beach"
      = Except.error (PlanError.routineNotFound "Monday") :=
  (C2_amended (fun _ => (Except.ok sampleForecast : Except Unit WindForcast))
      (fun _ => none) (fun _ => none) ⟨"Monday", "2025-12-01"⟩
      "Huntington Beach").1 sampleForecast rfl rfl

/-- The pool used in the successive-call counterexample. -/
def samplePool : List String := ["Ann", "Bob", "Cem", "Dia", "Eve"]

/-- C3 (counterexample): the attendance service's generator is stateful
across calls — with pool `["Ann","Bob","Cem","Dia","Eve"]` and seed 42 the
first call selects `[Bob, Dia]` but an immediately following call with the
same pool (and the same, unre-seeded service) selects `[Dia, Bob, Cem]`:
"calling select twice in succession with the same pool and seed" does not
produce identical output. -/
theorem C3_counterexample :
    (get_attendees "Morning Yoga" (some "Monday") none samplePool
        (pyRandomInit 42)).1
      = [⟨"Bob", "Present"⟩, ⟨"Dia", "Present"⟩] ∧
    (get_attendees "Morning Yoga" (some "Monday") none samplePool
        (get_attendees "Morning Yoga" (some "Monday") none samplePool
          (pyRandomInit 42)).2).1
      = [⟨"Dia", "Present"⟩, ⟨"Bob", "Present"⟩, ⟨"Cem", "Present"⟩] ∧
    (get_attendees "Morning Yoga" (some "Monday") none samplePool
        (pyRandomInit 42)).1
      ≠ (get_attendees "Morning Yoga" (some "Monday") none samplePool
          (get_attendees "Morning Yoga" (some "Monday") none samplePool
            (pyRandomInit 42)).2).1 := by
  rw [pyRandomInit_42,
    show samplePool = "Ann" :: "Bob" :: ["Cem", "Dia", "Eve"] from rfl,
    get_attendees_exhausted, twist_seededMt42]
  exact ⟨by decide, by decide, by decide⟩

/-- C3 (amended): selection is a deterministic function of the pool and the
generator state alone — the `class_name`, `day` and `location` arguments
never influence the result, so two invocations from identical generator
states with identical pools give identical names, order and count; it is
the sharing of the advancing generator state across successive calls
(see the counterexample) that breaks repeatability, not any
nondeterminism. -/
theorem C3_deterministic (cn cn' : String) (d d' loc loc' : Option String)
    (pool : List String) (st : MTState) :
    get_attendees cn d loc pool st = get_attendees cn' d' loc' pool st := rfl

/-- Value drawn by the `_randbelow` retry loop is always below `n`. -/
theorem randbelowLoop_lt (k n : ℕ) (hn : 0 < n) :
    ∀ (fuel : ℕ) (st : MTState), (randbelowLoop k n fuel st).1 < n := by
  intro fuel
  induction fuel with
  | zero => intro st; exact hn
  | succ fuel ih =>
    intro st
    simp only [randbelowLoop]
    split_ifs with h
    · exact h
    · exact ih _

/-- `randint(a, b)` stays in `[a, b]`. -/
theorem pyRandint_bounds (a b : ℕ) (st : MTState) (h : a ≤ b) :
    a ≤ (pyRandint a b st).1 ∧ (pyRandint a b st).1 ≤ b := by
  unfold pyRandint randbelow
  dsimp only
  have hlt := randbelowLoop_lt (pyBitLength (b - a + 1)) (b - a + 1)
    (by omega) 1000000 st
  exact ⟨Nat.le_add_right _ _, by omega⟩

/-- C7: the three selection rules in order — empty pool gives the empty
roster with the generator untouched; a singleton pool gives exactly that
candidate marked Present with the generator untouched; otherwise the count
is drawn by `randint(2, min(16, poolSize))` first, the pool is shuffled with
the same generator (threaded out of the draw), the first `n` shuffled
entries are returned marked Present, and the drawn count lies in the closed
range `[2, min(16, poolSize)]`. -/
theorem C7_selection_rules :
    (∀ (cn : String) (d loc : Option String) (st : MTState),
        get_attendees cn d loc [] st = ([], st)) ∧
    (∀ (cn : String) (d loc : Option String) (x : String) (st : MTState),
        get_attendees cn d loc [x] st = ([⟨x, "Present"⟩], st)) ∧
    (∀ (cn : String) (d loc : Option String) (x y : String)
        (rest : List String) (st : MTState),
        get_attendees cn d loc (x :: y :: rest) st =
          (((pyShuffle (x :: y :: rest)
                ((pyRandint 2 (min 16 (x :: y :: rest).length) st).2)).1.take
              (pyRandint 2 (min 16 (x :: y :: rest).length) st).1).map
              (fun name => ⟨name, "Present"⟩),
            (pyShuffle (x :: y :: rest)
              ((pyRandint 2 (min 16 (x :: y :: rest).length) st).2)).2)) ∧
    (∀ (x y : String) (rest : List String) (st : MTState),
        2 ≤ (pyRandint 2 (min 16 (x :: y :: rest).length) st).1 ∧
          (pyRandint 2 (min 16 (x :: y :: rest).length) st).1
            ≤ min 16 (x :: y :: rest).length) := by
  refine ⟨fun cn d loc st => rfl, fun cn d loc x st => rfl,
    fun cn d loc x y rest st => rfl, fun x y rest st => ?_⟩
  apply pyRandint_bounds
  simp only [List.length_cons]
  omega

/-- `get_wind_forecast`'s candidate loop yields no place when every
geocoding request succeeds with an empty result list. -/
theorem findPlace_all_empty {ε : Type}
    (geocode : String → Except ε (List GeoPlace)) :
    ∀ cs : List String, (∀ c ∈ cs, geocode c = Except.ok []) →
      findPlace geocode cs = Except.ok none := by
  intro cs h
  induction cs with
  | nil => rfl
  | cons c cs ih =>
    unfold findPlace
    rw [h c (List.mem_cons_self c cs)]
    exact ih (fun c' hc' => h c' (List.mem_cons_of_mem _ hc'))

/-- C6: when all geocoding requests succeed but no candidate normalization
of the label matches a place, the weather lookup returns the degraded
reading (original label, wind 0.0, no gust, no temperature, description
"Unknown") without error. -/
theorem C6_no_match_degrades {ε : Type}
    (geocode : String → Except ε (List GeoPlace))
    (fetchCurrent : Option ℚ → Option ℚ → Except ε CurrentWeather)
    (location : String)
    (h : ∀ c ∈ candidatesOf location, geocode c = Except.ok []) :
    get_wind_forecast geocode fetchCurrent location =
      Except.ok { location := location, wind_speed_mps := 0,
                  wind_gust_mps := none, description := "Unknown",
                  temperature_celsius := none } := by
  unfold get_wind_forecast
  rw [findPlace_all_empty geocode _ h]

/-- C6 (witness): a gateway whose geocoding always succeeds empty degrades
for the label "Atlantis (lost)". -/
theorem C6_witness :
    get_wind_forecast (fun _ => (Except.ok [] : Except Unit (List GeoPlace)))
        (fun _ _ => Except.error ()) "Atlantis (lost)"
      = Except.ok { location := "Atlantis (lost)", wind_speed_mps := 0,
                    wind_gust_mps := none, description := "Unknown",
                    temperature_celsius := none } :=
  C6_no_match_degrades _ _ _ (fun _ _ => rfl)

/-- The fixed text that opens the wind-gust summary line. -/
def gustPrefix : String := "   Wind Gust: "

/-- A rendered line with a fixed leading literal other than the gust prefix
never starts with the gust prefix (the variable part only extends the
line to the right). -/
theorem strStarts_append_false (a x : String)
    (h : ¬(gustPrefix.data <+: a.data ∨ a.data <+: gustPrefix.data)) :
    strStarts gustPrefix (a ++ x) = false := by
  apply Bool.eq_false_iff.mpr
  intro ht
  rw [strStarts, List.isPrefixOf_iff_prefix, strData_append] at ht
  exact h (List.prefix_or_prefix_of_prefix ht (List.prefix_append _ _))

/-- The gust line itself does start with the gust prefix. -/
theorem strStarts_gust_line (x : String) :
    strStarts gustPrefix (gustPrefix ++ x) = true := by
  rw [strStarts, strData_append]
  exact List.isPrefixOf_iff_prefix.mpr (List.prefix_append _ _)

/-- No bulleted recommendation line starts with the gust prefix. -/
theorem bullets_no_gust (adjustments : List String) :
    (adjustments.map (fun adj => "   • " ++ adj)).any
      (fun l => strStarts gustPrefix l) = false := by
  rw [List.any_eq_false]
  intro l hl
  rcases List.mem_map.mp hl with ⟨adj, _, rfl⟩
  simp [strStarts_append_false "   • " adj (by decide)]

/-- C9 (amended): a line of the rendered summary starts with the wind-gust
prefix iff the reading's gust is present *and non-zero* (Python's truthiness
test drops a `0.0` gust), and when it is, the summary contains the gust line
reporting exactly that value. -/
theorem C9_gust_line (day_name : String) (routine : WorkoutRoutine)
    (wf : WindForcast) (cs : Option ClassSession) (adjustments : List String) :
    ((summaryLines day_name routine wf cs adjustments).any
        (fun l => strStarts gustPrefix l) = true
      ↔ ∃ g, wf.wind_gust_mps = some g ∧ g ≠ 0) ∧
    (∀ g, wf.wind_gust_mps = some g → g ≠ 0 →
      (gustPrefix ++ (toString g ++ " m/s"))
        ∈ summaryLines day_name routine wf cs adjustments) := by
  have h1 := strStarts_append_false ("📅 Daily Workout Plan - ") day_name
    (by decide)
  have h2 : strStarts gustPrefix
      "=========\x3d=========\x3d=========\x3d=========\x3d=========\x3d"
        = false := by
    decide
  have h3 := strStarts_append_false "\n🏋️ Routine: " routine.name (by decide)
  have h4 := strStarts_append_false "   Duration: "
    (toString routine.duration_minutes ++ " minutes") (by decide)
  have h5 := strStarts_append_false "   Intensity: " routine.intensity
    (by decide)
  have h6 := strStarts_append_false "   Exercises: "
    (String.intercalate ", " routine.exercises) (by decide)
  have h7 := strStarts_append_false "\n🌍 Weather ("
    (wf.location ++ "):") (by decide)
  have h8 := strStarts_append_false "   Wind Speed: "
    (toString wf.wind_speed_mps ++ " m/s") (by decide)
  have h9 := strStarts_append_false "   Description: " wf.description
    (by decide)
  have h10 := strStarts_append_false "   Temperature: "
    ((match wf.temperature_celsius with
      | some t => toString t
      | none => "None") ++ " °C") (by decide)
  have h11 : strStarts gustPrefix "\n💡 Recommendations:" = false := by decide
  have hbul := bullets_no_gust adjustments
  constructor
  · rcases hg : wf.wind_gust_mps with _ | g
    · simp [summaryLines, hg, h1, h2, h3, h4, h5, h6, h7, h8, h9, h10, h11,
        hbul]
      rcases cs with _ | s
      · simp
      · simp [strStarts_append_false "\n👥 Class Session: " s.class_name
          (by decide), strStarts_append_false "   Time: " s.time (by decide),
          strStarts_append_false "   Attendance: "
            (toString (presentCount s) ++ ("/" ++
              (toString s.roster.length ++ " members present"))) (by decide)]
    · by_cases hz : g = 0
      · subst hz
        simp [summaryLines, hg, h1, h2, h3, h4, h5, h6, h7, h8, h9, h10, h11,
          hbul]
        rcases cs with _ | s
        · simp
        · simp [strStarts_append_false "\n👥 Class Session: " s.class_name
            (by decide), strStarts_append_false "   Time: " s.time (by decide),
            strStarts_append_false "   Attendance: "
              (toString (presentCount s) ++ ("/" ++
                (toString s.roster.length ++ " members present"))) (by decide)]
      · simp only [summaryLines, hg, if_neg hz, List.any_append, List.any_cons,
          List.any_nil, h1, h2, h3, h4, h5, h6, h7, h8, h9, h10, h11, hbul,
          Bool.or_false, Bool.false_or]
        rw [show ("   Wind Gust: " : String) = gustPrefix from rfl,
          strStarts_gust_line]
        simp [hz]
  · intro g hg hz
    simp [summaryLines, hg, hz, gustPrefix]

/-- A forecast whose gust is present but `0.0` (falsy in Python). -/
def gustZeroForecast : WindForcast :=
  { location := "X", wind_speed_mps := 3, wind_gust_mps := some 0,
    description := "Cloudy", temperature_celsius := some 20 }

/-- C9 (counterexample): a reading with a *present* gust of `0.0` renders a
summary with no wind-gust line — "gust line iff gust present" fails. -/
theorem C9_counterexample :
    gustZeroForecast.wind_gust_mps.isSome = true ∧
    (summaryLines "Monday" sampleRoutine gustZeroForecast none
        (generate_adjustments sampleRoutine gustZeroForecast none)).all
      (fun l => !strStarts gustPrefix l) = true := by
  exact ⟨rfl, by decide⟩

/-- A forecast with a non-zero gust, for the C9 witness. -/
def gustTwoForecast : WindForcast :=
  { location := "X", wind_speed_mps := 3, wind_gust_mps := some 2,
    description := "Cloudy", temperature_celsius := some 20 }

/-- C9 (witness): the amended claim instantiated at a gust of 2 m/s. -/
theorem C9_gust_line_witness :
    (gustPrefix ++ (toString (2 : ℚ) ++ " m/s"))
      ∈ summaryLines "Monday" sampleRoutine gustTwoForecast none [] :=
  (C9_gust_line "Monday" sampleRoutine gustTwoForecast none []).2 2 rfl
    (by norm_num)

/-! ## Sort-order lemmas for the template key sort (claims C4, C10) -/

/-- The "kind" of a key for Python's comparison: digit string (`int` sort
key) or not (`str` sort key). -/
def kindOf (k : String) : Bool := isPyDigit k

/-- The non-strict order the ascending sort establishes: `b` is not
strictly below `a`. -/
def keyLe (a b : String) : Prop := keyLt b a ≠ some true

/-- A key comparison raises exactly between an int key and a str key. -/
theorem keyLt_eq_none_iff (x y : String) :
    keyLt x y = none ↔ kindOf x ≠ kindOf y := by
  unfold keyLt sortKeyOf pyLt kindOf
  by_cases hx : isPyDigit x = true <;> by_cases hy : isPyDigit y = true <;>
    simp [hx, hy]

/-- A strict comparison that returned `True` forbids the reverse. -/
theorem keyLe_of_lt {x y : String} (h : keyLt x y = some true) : keyLe x y := by
  unfold keyLe
  unfold keyLt sortKeyOf pyLt at h ⊢
  by_cases hx : isPyDigit x = true <;> by_cases hy : isPyDigit y = true <;>
    simp [hx, hy] at h ⊢
  · omega
  · exact le_of_lt h

/-- A strict comparison that returned `False` gives the reverse non-strict
order. -/
theorem keyLe_of_not_lt {x y : String} (h : keyLt x y = some false) :
    keyLe y x := by
  unfold keyLe
  rw [h]
  simp

/-- Chaining a strict bound through a non-strict one, within one kind. -/
theorem keyLe_trans_of_lt {x y z : String} (hxy : keyLt x y = some true)
    (hyz : keyLe y z) (hz : kindOf z = kindOf y) : keyLe x z := by
  unfold keyLe at hyz ⊢
  unfold keyLt sortKeyOf pyLt at hxy hyz ⊢
  unfold kindOf at hz
  by_cases hxd : isPyDigit x = true <;> by_cases hyd : isPyDigit y = true <;>
    by_cases hzd : isPyDigit z = true <;>
      simp [hxd, hyd, hzd] at hxy hyz hz ⊢
  · omega
  · exact le_trans (le_of_lt hxy) hyz

/-- A successful comparison means the kinds agree. -/
theorem kind_eq_of_keyLt_some {x y : String} {b : Bool}
    (h : keyLt x y = some b) : kindOf x = kindOf y := by
  by_contra hne
  have hnone := (keyLt_eq_none_iff x y).mpr hne
  rw [h] at hnone
  cases hnone

/-- A successful insertion permutes the inserted element in. -/
theorem insertSortedM_perm (x : String) :
    ∀ {l l' : List String}, insertSortedM x l = some l' → l'.Perm (x :: l) := by
  intro l
  induction l with
  | nil =>
    intro l' h
    rw [show insertSortedM x [] = some [x] from rfl] at h
    cases h
    exact List.Perm.refl _
  | cons y ys ih =>
    intro l' h
    unfold insertSortedM at h
    cases hk : keyLt x y with
    | none => rw [hk] at h; cases h
    | some b =>
      rw [hk] at h
      cases b with
      | true =>
        cases h
        exact List.Perm.refl _
      | false =>
        rw [Option.map_eq_some'] at h
        obtain ⟨a, ha, rfl⟩ := h
        exact ((ih ha).cons y).trans (List.Perm.swap x y ys)

/-- A successful insertion into a list of one kind of key, with the
inserted key of that same kind, preserves sortedness. -/
theorem insertSortedM_sorted (k : Bool) (x : String) (hx : kindOf x = k) :
    ∀ {l l' : List String}, (∀ y ∈ l, kindOf y = k) →
      List.Pairwise keyLe l → insertSortedM x l = some l' →
        List.Pairwise keyLe l' := by
  intro l
  induction l with
  | nil =>
    intro l' _ _ h
    rw [show insertSortedM x [] = some [x] from rfl] at h
    cases h
    exact List.pairwise_singleton _ _
  | cons y ys ih =>
    intro l' hall hp h
    unfold insertSortedM at h
    cases hk : keyLt x y with
    | none => rw [hk] at h; cases h
    | some b =>
      rw [hk] at h
      cases b with
      | true =>
        cases h
        refine List.Pairwise.cons ?_ hp
        intro z hz
        rcases List.mem_cons.mp hz with rfl | hz
        · exact keyLe_of_lt hk
        · exact keyLe_trans_of_lt hk
            ((List.pairwise_cons.mp hp).1 z hz)
            ((hall z (List.mem_cons_of_mem _ hz)).trans
              (hall y (List.mem_cons_self _ _)).symm)
      | false =>
        rw [Option.map_eq_some'] at h
        obtain ⟨a, ha, rfl⟩ := h
        refine List.Pairwise.cons ?_
          (ih (fun z hz => hall z (List.mem_cons_of_mem _ hz))
            (List.pairwise_cons.mp hp).2 ha)
        intro z hz
        rcases List.mem_cons.mp ((insertSortedM_perm x ha).mem_iff.mp hz) with
          rfl | hz
        · exact keyLe_of_not_lt hk
        · exact (List.pairwise_cons.mp hp).1 z hz

/-- A successful insertion demands the head's kind. -/
theorem insertSortedM_head_kind {x y : String} {ys l' : List String}
    (h : insertSortedM x (y :: ys) = some l') : kindOf x = kindOf y := by
  unfold insertSortedM at h
  cases hk : keyLt x y with
  | none => rw [hk] at h; cases h
  | some b => exact kind_eq_of_keyLt_some hk

/-- Insertion into a list of the inserted key's kind always succeeds. -/
theorem insertSortedM_isSome (k : Bool) (x : String) (hx : kindOf x = k) :
    ∀ l : List String, (∀ y ∈ l, kindOf y = k) →
      ∃ l', insertSortedM x l = some l' := by
  intro l
  induction l with
  | nil => exact fun _ => ⟨[x], rfl⟩
  | cons y ys ih =>
    intro hall
    have hk : kindOf x = kindOf y :=
      hx.trans (hall y (List.mem_cons_self _ _)).symm
    unfold insertSortedM
    cases hlt : keyLt x y with
    | none =>
      rw [keyLt_eq_none_iff] at hlt
      exact absurd hk hlt
    | some b =>
      cases b with
      | true => exact ⟨x :: y :: ys, rfl⟩
      | false =>
        obtain ⟨l', hl'⟩ := ih (fun z hz => hall z (List.mem_cons_of_mem _ hz))
        exact ⟨y :: l', by rw [hl']; rfl⟩

/-- The sort fold permutes its input (prepended to the accumulator). -/
theorem sortAccM_perm :
    ∀ {l acc s : List String}, sortAccM acc l = some s → s.Perm (l ++ acc) := by
  intro l
  induction l with
  | nil =>
    intro acc s h
    cases h
    exact List.Perm.refl _
  | cons x xs ih =>
    intro acc s h
    unfold sortAccM at h
    cases hi : insertSortedM x acc with
    | none => rw [hi] at h; cases h
    | some acc1 =>
      rw [hi] at h
      exact (ih h).trans
        ((List.Perm.append_left xs (insertSortedM_perm x hi)).trans
          List.perm_middle)

/-- The sort fold keeps the accumulator sorted. -/
theorem sortAccM_sorted (k : Bool) :
    ∀ {l acc s : List String}, (∀ y ∈ acc, kindOf y = k) →
      (∀ y ∈ l, kindOf y = k) → List.Pairwise keyLe acc →
        sortAccM acc l = some s → List.Pairwise keyLe s := by
  intro l
  induction l with
  | nil =>
    intro acc s _ _ hp h
    cases h
    exact hp
  | cons x xs ih =>
    intro acc s hacc hl hp h
    unfold sortAccM at h
    cases hi : insertSortedM x acc with
    | none => rw [hi] at h; cases h
    | some acc1 =>
      rw [hi] at h
      have hx : kindOf x = k := hl x (List.mem_cons_self _ _)
      have hacc1 : ∀ y ∈ acc1, kindOf y = k := by
        intro y hy
        rcases List.mem_cons.mp ((insertSortedM_perm x hi).mem_iff.mp hy) with rfl | hy
        · exact hx
        · exact hacc y hy
      exact ih hacc1 (fun z hz => hl z (List.mem_cons_of_mem _ hz))
        (insertSortedM_sorted k x hx hacc hp hi) h

/-- A successful sort forces every element processed after a nonempty
accumulator to share the accumulator's kind. -/
theorem sortAccM_some_kind (k : Bool) :
    ∀ {l acc s : List String}, (∀ y ∈ acc, kindOf y = k) → acc ≠ [] →
      sortAccM acc l = some s → ∀ x ∈ l, kindOf x = k := by
  intro l
  induction l with
  | nil => intro acc s _ _ _ x hx; cases hx
  | cons x xs ih =>
    intro acc s hacc hne h z hz
    unfold sortAccM at h
    cases hi : insertSortedM x acc with
    | none => rw [hi] at h; cases h
    | some acc1 =>
      rw [hi] at h
      have hx : kindOf x = k := by
        rcases acc with _ | ⟨a, as⟩
        · exact absurd rfl hne
        · exact (insertSortedM_head_kind hi).trans
            (hacc a (List.mem_cons_self _ _))
      have hacc1 : ∀ y ∈ acc1, kindOf y = k := by
        intro y hy
        rcases List.mem_cons.mp ((insertSortedM_perm x hi).mem_iff.mp hy) with rfl | hy
        · exact hx
        · exact hacc y hy
      have hne1 : acc1 ≠ [] := by
        intro he
        have := (insertSortedM_perm x hi).length_eq
        rw [he] at this
        simp at this
      rcases List.mem_cons.mp hz with rfl | hz
      · exact hx
      · exact ih hacc1 hne1 h z hz

/-- The key sort succeeds exactly when all keys are of one kind. -/
theorem sortKeysM_isSome_iff (l : List String) :
    (sortKeysM l).isSome ↔ ∀ x ∈ l, ∀ y ∈ l, kindOf x = kindOf y := by
  constructor
  · intro h x hx y hy
    rcases l with _ | ⟨a, as⟩
    · cases hx
    · rw [Option.isSome_iff_exists] at h
      obtain ⟨s, hs⟩ := h
      unfold sortKeysM sortAccM at hs
      rw [show insertSortedM a [] = some [a] from rfl] at hs
      have hall : ∀ z ∈ as, kindOf z = kindOf a :=
        sortAccM_some_kind (kindOf a)
          (by intro y hy; rcases List.mem_cons.mp hy with rfl | hy
              · rfl
              · cases hy)
          (by simp) hs
      have hgen : ∀ z ∈ a :: as, kindOf z = kindOf a := by
        intro z hz
        rcases List.mem_cons.mp hz with rfl | hz
        · rfl
        · exact hall z hz
      rw [hgen x hx, hgen y hy]
  · intro h
    rcases l with _ | ⟨a, as⟩
    · exact rfl
    · have hall : ∀ z ∈ a :: as, kindOf z = kindOf a :=
        fun z hz => h z hz a (List.mem_cons_self _ _)
      suffices hs : ∀ (xs acc : List String), (∀ y ∈ acc, kindOf y = kindOf a) →
          (∀ y ∈ xs, kindOf y = kindOf a) → ∃ s, sortAccM acc xs = some s by
        obtain ⟨s, hs'⟩ := hs (a :: as) [] (by intro y hy; cases hy) hall
        unfold sortKeysM
        rw [hs']
        rfl
      intro xs
      induction xs with
      | nil => exact fun acc _ _ => ⟨acc, rfl⟩
      | cons x xs ih =>
        intro acc hacc hxs
        obtain ⟨acc1, h1⟩ := insertSortedM_isSome (kindOf a) x
          (hxs x (List.mem_cons_self _ _)) acc hacc
        obtain ⟨s, hs'⟩ := ih acc1
          (by intro y hy
              rcases List.mem_cons.mp ((insertSortedM_perm x h1).mem_iff.mp hy) with rfl | hy
              · exact hxs _ (List.mem_cons_self _ _)
              · exact hacc y hy)
          (fun z hz => hxs z (List.mem_cons_of_mem _ hz))
        refine ⟨s, ?_⟩
        unfold sortAccM
        rw [h1]
        exact hs'

/-- A lookup hit is a member of the association list. -/
theorem mem_of_lookup_eq_some {β : Type} :
    ∀ {l : List (String × β)} {k : String} {v : β},
      l.lookup k = some v → (k, v) ∈ l := by
  intro l
  induction l with
  | nil =>
    intro k v h
    simp [List.lookup] at h
  | cons p ps ih =>
    intro k v h
    rcases p with ⟨a, b⟩
    rw [List.lookup] at h
    by_cases he : k = a
    · subst he
      simp at h
      rw [h]
      exact List.mem_cons_self _ _
    · rw [beq_eq_false_iff_ne.mpr he] at h
      exact List.mem_cons_of_mem _ (ih h)

/-- Every key of an association list has a lookup hit. -/
theorem lookup_isSome_of_mem_keys {β : Type} :
    ∀ {l : List (String × β)} {k : String},
      k ∈ l.map Prod.fst → ∃ v, l.lookup k = some v := by
  intro l
  induction l with
  | nil =>
    intro k h
    simp at h
  | cons p ps ih =>
    intro k h
    rcases p with ⟨a, b⟩
    by_cases he : k = a
    · subst he
      exact ⟨b, by simp [List.lookup]⟩
    · rcases List.mem_cons.mp h with h' | h'
      · exact absurd h' he
      · obtain ⟨v, hv⟩ := ih h'
        exact ⟨v, by rw [List.lookup, beq_eq_false_iff_ne.mpr he]; exact hv⟩

/-- C10: template loading completes (returns a state rather than raising)
exactly when the well-formed entries' keys are comparable under the sort
key — all digit strings or all non-digit strings; a raw mapping with a key
of each kind makes the ascending sort compare an `int` with a `str` and
raise, instead of collapsing to an empty template set. -/
theorem C10_mixed_keys_raise (raw : List (String × Option TemplateDict)) :
    (load_templates raw).isSome ↔
      ¬((∃ k1 ∈ (filterDicts raw).map Prod.fst, isPyDigit k1 = true) ∧
        (∃ k2 ∈ (filterDicts raw).map Prod.fst, isPyDigit k2 = false)) := by
  have hload : (load_templates raw).isSome
      = (sortKeysM ((filterDicts raw).map Prod.fst)).isSome := by
    unfold load_templates
    cases hs : sortKeysM ((filterDicts raw).map Prod.fst) <;> simp [hs]
  rw [hload, sortKeysM_isSome_iff]
  constructor
  · rintro h ⟨⟨k1, h1m, h1⟩, ⟨k2, h2m, h2⟩⟩
    have hk := h k1 h1m k2 h2m
    unfold kindOf at hk
    rw [h1, h2] at hk
    cases hk
  · intro h x hx y hy
    by_contra hne
    apply h
    unfold kindOf at hne
    cases hbx : isPyDigit x <;> cases hby : isPyDigit y <;>
      rw [hbx, hby] at hne
    · exact absurd rfl hne
    · exact ⟨⟨y, hy, hby⟩, ⟨x, hx, hbx⟩⟩
    · exact ⟨⟨x, hx, hbx⟩, ⟨y, hy, hby⟩⟩
    · exact absurd rfl hne

/-- A fully populated template payload (used in C4/C8 instances). -/
def fullDict (nm : String) : TemplateDict :=
  { name := some nm, exercises := some ["Jumping Jacks"],
    duration_minutes := some 30, intensity := some "Low" }

/-- Seven well-formed (dict) templates, the first being the empty object. -/
def sevenRaw : List (String × Option TemplateDict) :=
  [("1", some {}), ("2", some (fullDict "T2")), ("3", some (fullDict "T3")),
   ("4", some (fullDict "T4")), ("5", some (fullDict "T5")),
   ("6", some (fullDict "T6")), ("7", some (fullDict "T7"))]

/-- C4 (counterexample): a raw mapping with exactly seven well-formed
(dict-valued) templates whose first sorted payload is the empty object `{}`
loads fine, but Monday's lookup returns not-found (the empty dict is falsy
at lookup time) — so "every weekday maps one-to-one to a template" fails
as universally stated. -/
theorem C4_counterexample :
    (filterDicts sevenRaw).length = 7 ∧
    ((load_templates sevenRaw).map (fun st => get_routine_for_day st "Monday"))
      = some none := by
  exact ⟨rfl, by decide⟩

/-- Day assignment: looking a weekday up in the built map yields `keys[i]`
when `i < len(keys)`, else the last key (or `""` for no keys). -/
theorem lookup_assignWeekdays (ks : List String) (i : ℕ) (hi : i < 7) :
    (assignWeekdays ks).lookup (weekdays.getD i "") =
      some (if i < ks.length then ks.getD i "" else ks.getLastD "") := by
  interval_cases i <;> rfl

/-- C4 (amended): given a loadable raw mapping with distinct keys, non-empty
(truthy) payloads and no empty-string key, the sorted keys are ascending and
distinct; with zero templates every weekday lookup is not-found; weekday `i`
below the key count resolves the routine built from the template at sorted
key `i` (one-to-one for seven keys since the keys are distinct); and every
weekday at or beyond the key count resolves the routine built from the
*last* sorted template (not a cyclic repeat). -/
theorem C4_weekday_assignment (raw : List (String × Option TemplateDict))
    (st : RoutineState) (ks : List String)
    (hload : load_templates raw = some st)
    (hks : sortKeysM ((filterDicts raw).map Prod.fst) = some ks)
    (hnodup : ((filterDicts raw).map Prod.fst).Nodup)
    (htruthy : ∀ kv ∈ filterDicts raw, kv.2.isFalsy = false)
    (hnoempty : "" ∉ (filterDicts raw).map Prod.fst) :
    List.Pairwise keyLe ks ∧ ks.Nodup ∧
    (ks = [] → ∀ day, get_routine_for_day st day = none) ∧
    (∀ i, i < 7 → i < ks.length →
      ∃ tpl, (filterDicts raw).lookup (ks.getD i "") = some tpl ∧
        get_routine_for_day st (weekdays.getD i "")
          = some (build_routine_from_template (weekdays.getD i "") tpl)) ∧
    (∀ i, i < 7 → ks.length ≤ i → ks ≠ [] →
      ∃ tpl, (filterDicts raw).lookup (ks.getLastD "") = some tpl ∧
        get_routine_for_day st (weekdays.getD i "")
          = some (build_routine_from_template (weekdays.getD i "") tpl)) := by
  have hst : st = ⟨filterDicts raw, assignWeekdays ks⟩ := by
    simp only [load_templates] at hload
    rw [hks] at hload
    exact (Option.some.inj hload).symm
  have hperm : ks.Perm ((filterDicts raw).map Prod.fst) := by
    have hp := sortAccM_perm (show sortAccM [] ((filterDicts raw).map Prod.fst)
      = some ks from hks)
    rwa [List.append_nil] at hp
  have hsome : (sortKeysM ((filterDicts raw).map Prod.fst)).isSome := by
    rw [hks]
    rfl
  have huni := (sortKeysM_isSome_iff ((filterDicts raw).map Prod.fst)).mp hsome
  have hpw : List.Pairwise keyLe ks := by
    rcases hl : (filterDicts raw).map Prod.fst with _ | ⟨a, as⟩
    · rw [hl] at hks
      cases hks
      exact List.Pairwise.nil
    · rw [hl] at hks huni
      exact sortAccM_sorted (kindOf a) (fun y hy => absurd hy (List.not_mem_nil y))
        (fun y hy => huni y hy a (List.mem_cons_self _ _)) List.Pairwise.nil hks
  refine ⟨hpw, hperm.symm.nodup hnodup, ?_, ?_, ?_⟩
  · -- zero templates
    intro hks0 day
    subst hks0
    rw [hst]
    show get_routine_for_day ⟨filterDicts raw, assignWeekdays []⟩ day = none
    have hsnd : ∀ p ∈ assignWeekdays ([] : List String), p.2 = "" := by decide
    unfold get_routine_for_day
    cases hlk : (assignWeekdays ([] : List String)).lookup day with
    | none => rfl
    | some k =>
      have hk : k = "" := hsnd _ (mem_of_lookup_eq_some hlk)
      simp [hk]
  · -- days within the key count
    intro i hi7 hilen
    have hkmem : ks.getD i "" ∈ ks := by
      rw [List.getD_eq_get _ _ hilen]
      exact List.get_mem _ _ _
    have hkeys : ks.getD i "" ∈ (filterDicts raw).map Prod.fst :=
      hperm.subset hkmem
    obtain ⟨tpl, htpl⟩ := lookup_isSome_of_mem_keys hkeys
    refine ⟨tpl, htpl, ?_⟩
    have hkne : ks.getD i "" ≠ "" := fun he => hnoempty (he ▸ hkeys)
    have hfalsy : tpl.isFalsy = false :=
      htruthy _ (mem_of_lookup_eq_some htpl)
    rw [hst]
    unfold get_routine_for_day
    rw [show (RoutineState.mk (filterDicts raw) (assignWeekdays ks)).weekday_map
      = assignWeekdays ks from rfl, lookup_assignWeekdays ks i hi7,
      if_pos hilen]
    dsimp only
    rw [if_neg hkne, htpl]
    dsimp only
    simp [hfalsy]
  · -- days at or beyond the key count
    intro i hi7 hlen hne
    have hkmem : ks.getLastD "" ∈ ks := by
      rcases ks with _ | ⟨a, as⟩
      · exact absurd rfl hne
      · rw [List.getLastD_eq_getLast?, List.getLast?_eq_getLast _
          (List.cons_ne_nil a as)]
        exact List.getLast_mem _
    have hkeys : ks.getLastD "" ∈ (filterDicts raw).map Prod.fst :=
      hperm.subset hkmem
    obtain ⟨tpl, htpl⟩ := lookup_isSome_of_mem_keys hkeys
    refine ⟨tpl, htpl, ?_⟩
    have hkne : ks.getLastD "" ≠ "" := fun he => hnoempty (he ▸ hkeys)
    have hfalsy : tpl.isFalsy = false :=
      htruthy _ (mem_of_lookup_eq_some htpl)
    rw [hst]
    unfold get_routine_for_day
    rw [show (RoutineState.mk (filterDicts raw) (assignWeekdays ks)).weekday_map
      = assignWeekdays ks from rfl, lookup_assignWeekdays ks i hi7,
      if_neg (not_lt.mpr hlen)]
    dsimp only
    rw [if_neg hkne, htpl]
    dsimp only
    simp [hfalsy]

/-- Seven well-formed, non-empty templates keyed "1".."7". -/
def sevenGoodRaw : List (String × Option TemplateDict) :=
  [("1", some (fullDict "T1")), ("2", some (fullDict "T2")),
   ("3", some (fullDict "T3")), ("4", some (fullDict "T4")),
   ("5", some (fullDict "T5")), ("6", some (fullDict "T6")),
   ("7", some (fullDict "T7"))]

/-- The sorted keys of `sevenGoodRaw`. -/
def sevenKeys : List String := ["1", "2", "3", "4", "5", "6", "7"]

/-- The state `sevenGoodRaw` loads to. -/
def sevenState : RoutineState :=
  ⟨filterDicts sevenGoodRaw, assignWeekdays sevenKeys⟩

/-- C4 (witness): the amended claim instantiated at seven well-formed
non-empty templates. -/
theorem C4_weekday_assignment_witness :
    List.Pairwise keyLe sevenKeys ∧ sevenKeys.Nodup ∧
    (sevenKeys = [] → ∀ day, get_routine_for_day sevenState day = none) ∧
    (∀ i, i < 7 → i < sevenKeys.length →
      ∃ tpl, (filterDicts sevenGoodRaw).lookup (sevenKeys.getD i "") = some tpl ∧
        get_routine_for_day sevenState (weekdays.getD i "")
          = some (build_routine_from_template (weekdays.getD i "") tpl)) ∧
    (∀ i, i < 7 → sevenKeys.length ≤ i → sevenKeys ≠ [] →
      ∃ tpl, (filterDicts sevenGoodRaw).lookup (sevenKeys.getLastD "") = some tpl ∧
        get_routine_for_day sevenState (weekdays.getD i "")
          = some (build_routine_from_template (weekdays.getD i "") tpl)) :=
  C4_weekday_assignment sevenGoodRaw sevenState sevenKeys (by decide)
    (by decide) (by decide) (by decide) (by decide)

/-- The data-model invariant claimed for every loaded ActivityTemplate:
non-empty exercise sequence, positive duration, enumerated intensity. -/
def routineInv (r : WorkoutRoutine) : Prop :=
  r.exercises ≠ [] ∧ 0 < r.duration_minutes ∧
    r.intensity ∈ (["Low", "Medium", "High"] : List String)

/-- A raw mapping whose single template payload has only a name. -/
def nameOnlyRaw : List (String × Option TemplateDict) :=
  [("1", some { name := some "Stretch" })]

/-- C8 (counterexample): loading performs no payload validation — a
non-empty payload with only a `name` loads and produces a routine with an
empty exercise list and duration 0, violating the claimed invariants. -/
theorem C8_counterexample :
    ((load_templates nameOnlyRaw).map (fun st => get_routine_for_day st "Monday"))
      = some (some { day := "Monday", name := "Stretch", exercises := [],
                     duration_minutes := 0, intensity := "Medium" }) ∧
    ¬ routineInv { day := "Monday", name := "Stretch", exercises := [],
                   duration_minutes := 0, intensity := "Medium" } := by
  exact ⟨by decide, fun h => h.1 rfl⟩

/-- C8 (amended): a routine built from a payload that does provide a
non-empty exercise list, a positive duration and an enumerated intensity
satisfies all three data-model invariants (loading enforces none of them
itself). -/
theorem C8_invariants_of_wellformed (day : String) (t : TemplateDict)
    (exs : List String) (d : Int) (i : String)
    (hex : t.exercises = some exs) (hexne : exs ≠ [])
    (hd : t.duration_minutes = some d) (hdpos : 0 < d)
    (hi : t.intensity = some i)
    (hiv : i ∈ (["Low", "Medium", "High"] : List String)) :
    routineInv (build_routine_from_template day t) := by
  unfold routineInv build_routine_from_template
  rw [hex, hd, hi]
  exact ⟨hexne, hdpos, hiv⟩

/-- C8 (witness): the amended claim at a concrete well-formed payload. -/
theorem C8_invariants_witness :
    routineInv (build_routine_from_template "Monday"
      { name := none, exercises := some ["Jumping Jacks"],
        duration_minutes := some 30, intensity := some "Low" }) :=
  C8_invariants_of_wellformed "Monday" _ ["Jumping Jacks"] 30 "Low" rfl
    (by decide) rfl (by decide) rfl (by decide)

end Coach
